import Mathlib

/-!
# OneNote MCP server (`server.js`): a shallow embedding and its protocol properties

The server is a line-delimited JSON-RPC relay.  The embedding below follows
`server.js` function by function.

* JavaScript values that travel through the program (parsed JSON, tool
  arguments, responses) are `JVal`.
* A thrown JavaScript error is a `JsError` (its `message`, and the `response`
  an HTTP client error carries).
* An `async` function is a `Js α`: a function from the `World` (the module
  variable `cachedToken` and the trace of effects so far) to an outcome
  (a value, or a thrown error) and the new world.
* Library functions (`JSON.parse`, `JSON.stringify`, `Date.parse`) are the
  fields of `Lib`; what the outside world answers while one request is being
  processed (the clock, the identity provider, the file system, the remote
  API) are the fields of `Ext`.
-/

namespace OneNote

/-! ## Values -/

/-- JavaScript values built from JSON data.  An object is the list of its own
properties; a property is looked up by its first occurrence in the list.
Numbers are the integers. -/
inductive JVal where
  | undefined : JVal
  | null : JVal
  | bool (b : Bool) : JVal
  | num (n : Int) : JVal
  | str (s : String) : JVal
  | arr (xs : List JVal) : JVal
  | obj (fields : List (String × JVal)) : JVal
  deriving Repr, Inhabited

/-- A thrown error object: `error.message` and `error.response` (present on the
errors of the HTTP client when the server answered, `undefined` otherwise). -/
structure JsError where
  message : String
  response : JVal
  deriving Repr, Inhabited

/-- The error made by `new Error(message)`. -/
def mkError (message : String) : JsError := ⟨message, .undefined⟩

/-- A `TypeError` raised by the language itself. -/
def typeError (message : String) : JsError := ⟨message, .undefined⟩

/-- JavaScript truthiness (`!!v`). -/
def truthy : JVal → Bool
  | .undefined => false
  | .null => false
  | .bool b => b
  | .num n => n != 0
  | .str s => s != ""
  | .arr _ => true
  | .obj _ => true

/-- Whether `v` is `null` or `undefined`. -/
def nullish : JVal → Bool
  | .undefined => true
  | .null => true
  | _ => false

/-- Strict equality `v === s` with a string literal `s` (what a `switch` over
string cases tests). -/
def strictEqStr (v : JVal) (s : String) : Bool :=
  match v with
  | .str x => x == s
  | _ => false

/-- Whether an object has an own property `k`. -/
def hasOwn (fields : List (String × JVal)) (k : String) : Bool :=
  (fields.lookup k).isSome

mutual
/-- The string conversion `ToString(v)` of a template literal.  A plain object
prints as `[object Object]`; an object with an own (hence non-callable)
`toString` property cannot be converted and raises a `TypeError`.  An array is
its elements joined by commas. -/
def toStr : JVal → Except JsError String
  | .undefined => .ok "undefined"
  | .null => .ok "null"
  | .bool b => .ok (if b then "true" else "false")
  | .num n => .ok (toString n)
  | .str s => .ok s
  | .arr xs =>
      match elemStrs xs with
      | .error e => .error e
      | .ok parts => .ok (",".intercalate parts)
  | .obj fields =>
      if hasOwn fields "toString" then
        .error (typeError "Cannot convert object to primitive value")
      else .ok "[object Object]"
/-- The strings `Array.prototype.join` joins, left to right: `null` and
`undefined` give the empty string. -/
def elemStrs : List JVal → Except JsError (List String)
  | [] => .ok []
  | .undefined :: xs =>
      match elemStrs xs with
      | .error e => .error e
      | .ok parts => .ok ("" :: parts)
  | .null :: xs =>
      match elemStrs xs with
      | .error e => .error e
      | .ok parts => .ok ("" :: parts)
  | x :: xs =>
      match toStr x with
      | .error e => .error e
      | .ok a =>
          match elemStrs xs with
          | .error e => .error e
          | .ok parts => .ok (a :: parts)
end

/-- The property read `v.k`, for the property names this program reads (none of
them is defined on a built-in prototype): a `TypeError` on `null` and
`undefined`, the own property of an object, `undefined` otherwise. -/
def getProp (v : JVal) (k : String) : Except JsError JVal :=
  match v with
  | .undefined =>
      .error (typeError ("Cannot read properties of undefined (reading '" ++ k ++ "')"))
  | .null =>
      .error (typeError ("Cannot read properties of null (reading '" ++ k ++ "')"))
  | .obj fields => .ok ((fields.lookup k).getD .undefined)
  | _ => .ok .undefined

/-- The optional-chaining read `v?.k`: `undefined` on `null` and `undefined`. -/
def optProp (v : JVal) (k : String) : JVal :=
  match v with
  | .obj fields => (fields.lookup k).getD .undefined
  | _ => .undefined

/-! ## Effects, the world and the task monad -/

/-- The HTTP request handed to `axios`. -/
structure Request where
  method : String
  url : String
  headers : List (String × String)
  data : JVal
  deriving Repr, Inhabited

/-- What the program does to the outside world, in order of occurrence.
`stdout r` is `console.log(JSON.stringify(r))`, one protocol line.  `call f`
is not an effect of the source: it marks that the function `f` was entered, so
that statements of the form "`f` is not invoked" can be made. -/
inductive Eff where
  | log (level : String) (message : String) : Eff
  | stdout (response : JVal) : Eff
  | deviceCode (scopes : List String) (timeout : Nat) : Eff
  | writeFile (data : JVal) : Eff
  | axios (req : Request) : Eff
  | call (fn : String) : Eff
  deriving Repr, Inhabited

/-- The mutable state: the module variable `cachedToken` and the effects so far. -/
structure World where
  cachedToken : JVal
  trace : List Eff
  deriving Repr, Inhabited

/-- Library functions the program calls.  `stringify` is `JSON.stringify(v)`,
`stringifyIndented` is `JSON.stringify(v, null, 2)`; both give `none` where
JavaScript gives `undefined`.  `dateParse` is the time value of `Date.parse`,
`none` for `NaN`. -/
structure Lib where
  jsonParse : String → Except JsError JVal
  stringify : JVal → Option String
  stringifyIndented : JVal → Option String
  dateParse : String → Option Int

/-- What the outside world answers while one request is processed: the clock
at the expiry check, the device-code flow (the verification URI and user code
it reports to the callback, if it gets that far, and its final result), the
outcome of writing the cache file, and the remote API (`response.data` of the
HTTP response, or the error `axios` rejects with). -/
structure Ext where
  now : Int
  prompt : Option (String × String)
  acquireTokenByDeviceCode : Except JsError JVal
  writeFile : Except JsError Unit
  axios : Request → Except JsError JVal

/-- An `async` function body: it runs from a world to a returned value or a
thrown error, and the world it leaves. -/
def Js (α : Type) : Type := World → Except JsError α × World

/-- Run a task from a world. -/
def Js.run {α : Type} (x : Js α) (w : World) : Except JsError α × World := x w

/-- Sequencing: a thrown error skips the rest, keeping the world. -/
def Js.bind {α β : Type} (x : Js α) (f : α → Js β) : Js β := fun w =>
  match x w with
  | (.ok a, w1) => f a w1
  | (.error e, w1) => (.error e, w1)

/-- The `try`/`catch` statement. -/
def Js.tryCatch {α : Type} (x : Js α) (h : JsError → Js α) : Js α := fun w =>
  match x w with
  | (.ok a, w1) => (.ok a, w1)
  | (.error e, w1) => h e w1

instance : Monad Js where
  pure a := fun w => (.ok a, w)
  bind := Js.bind

instance : MonadExcept JsError Js where
  throw e := fun w => (.error e, w)
  tryCatch := Js.tryCatch

/-- Run a pure computation that may throw. -/
def liftE {α : Type} (r : Except JsError α) : Js α := fun w => (r, w)

/-- Record an effect. -/
def emit (e : Eff) : Js Unit := fun w => (.ok (), { w with trace := w.trace ++ [e] })

/-- Read the module variable `cachedToken`. -/
def readCachedToken : Js JVal := fun w => (.ok w.cachedToken, w)

/-- Assign the module variable `cachedToken`. -/
def writeCachedToken (token : JVal) : Js Unit := fun w => (.ok (), { w with cachedToken := token })

/-- A string or `undefined`. -/
def optStr : Option String → JVal
  | some s => .str s
  | none => .undefined

/-! ## Configuration -/

def SCOPES : List String := ["Notes.Read", "Notes.Create", "Notes.ReadWrite", "User.Read"]

def GRAPH_BASE_URL : String := "https://graph.microsoft.com/v1.0"

/-! ## Logging and token management -/

/-- The `log(message, level)` of the source: one line on the diagnostic stream
(the time stamp it prefixes is left out). -/
def log (message : String) (level : String) : Js Unit := emit (.log level message)

/-- `TimeClip`: a time value beyond 8.64e15 ms is `NaN`. -/
def timeClip (n : Int) : Option Int :=
  if n.natAbs ≤ 8640000000000000 then some n else none

/-- The time value of `new Date(v)`, `none` for an invalid date.  The stored
`expiresOn` is an ISO string once reloaded from the cache file, and a `Date`
(here: its time value, a number) in a record fresh from the identity library. -/
def newDate (L : Lib) (v : JVal) : Except JsError (Option Int) :=
  match v with
  | .undefined => .ok none
  | .null => .ok (some 0)
  | .bool b => .ok (some (if b then 1 else 0))
  | .num n => .ok (timeClip n)
  | .str s => .ok (L.dateParse s)
  | .arr xs => (toStr (.arr xs)).map L.dateParse
  | .obj fields => (toStr (.obj fields)).map L.dateParse

/-- The comparison `d > new Date()` of a date with the current time. -/
def dateAfter (d : Option Int) (now : Int) : Bool :=
  match d with
  | some e => decide (now < e)
  | none => false

/-- The source's `saveCachedToken`: the variable is assigned first, then the
file is written. -/
def saveCachedToken (L : Lib) (X : Ext) (token : JVal) : Js Unit := do
  writeCachedToken token
  emit (.writeFile (optStr (L.stringifyIndented token)))
  liftE X.writeFile
  log "Token cached" "info"

/-- The call `pca.acquireTokenByDeviceCode(deviceCodeRequest)`: the library
reports the verification URI and the user code to `deviceCodeCallback`, which
logs them, and resolves or rejects. -/
def acquireTokenByDeviceCode (X : Ext) : Js JVal := do
  emit (.deviceCode SCOPES 300000)
  match X.prompt with
  | some (verificationUri, userCode) =>
      log ("Please navigate to: " ++ verificationUri) "info"
      log ("Enter code: " ++ userCode) "info"
  | none => pure ()
  liftE X.acquireTokenByDeviceCode

/-- The source's `getAccessToken`. -/
def getAccessToken (L : Lib) (X : Ext) : Js JVal := do
  emit (.call "getAccessToken")
  let cachedToken ← readCachedToken
  let valid ←
    if truthy cachedToken then do
      let expiresOn ← liftE (getProp cachedToken "expiresOn")
      let d ← liftE (newDate L expiresOn)
      pure (dateAfter d X.now)
    else pure false
  if valid then
    log "Using cached token" "info"
    liftE (getProp cachedToken "accessToken")
  else
    log "Acquiring new token via Device Code flow" "info"
    tryCatch
      (do
        let response ← acquireTokenByDeviceCode X
        saveCachedToken L X response
        log "Authentication successful" "info"
        liftE (getProp response "accessToken"))
      (fun error => do
        log ("Authentication failed: " ++ error.message) "error"
        throw error)

/-! ## Microsoft Graph requests -/

/-- The call `axios(request)`; the value is `response.data`. -/
def axios (X : Ext) (req : Request) : Js JVal := do
  emit (.axios req)
  liftE (X.axios req)

/-- The text `error.response?.data?.error?.message || error.message`. -/
def errorText (error : JsError) : JVal :=
  let m := optProp (optProp (optProp error.response "data") "error") "message"
  if truthy m then m else .str error.message

/-- The source's `makeGraphRequest`. -/
def makeGraphRequest (L : Lib) (X : Ext) (method : String) (endpoint : String) (data : JVal) :
    Js JVal := do
  let token ← getAccessToken L X
  tryCatch
    (do
      let bearer ← liftE (toStr token)
      axios X
        { method := method
          url := GRAPH_BASE_URL ++ endpoint
          headers := [("Authorization", "Bearer " ++ bearer), ("Content-Type", "application/json")]
          data := data })
    (fun error => do
      let text ← liftE (toStr (errorText error))
      log ("Graph API error: " ++ text) "error"
      throw error)

/-! ## OneNote operations -/

def readNotebooks (L : Lib) (X : Ext) : Js JVal := do
  log "Reading notebooks" "info"
  let response ← makeGraphRequest L X "GET" "/me/onenote/notebooks" .null
  liftE (getProp response "value")

def readSections (L : Lib) (X : Ext) (notebookId : JVal) : Js JVal := do
  let nb ← liftE (toStr notebookId)
  log ("Reading sections for notebook: " ++ nb) "info"
  let response ← makeGraphRequest L X "GET" ("/me/onenote/notebooks/" ++ nb ++ "/sections") .null
  liftE (getProp response "value")

def readPages (L : Lib) (X : Ext) (sectionId : JVal) : Js JVal := do
  let sec ← liftE (toStr sectionId)
  log ("Reading pages for section: " ++ sec) "info"
  let response ← makeGraphRequest L X "GET" ("/me/onenote/sections/" ++ sec ++ "/pages") .null
  liftE (getProp response "value")

def readPageContent (L : Lib) (X : Ext) (pageId : JVal) : Js JVal := do
  let pg ← liftE (toStr pageId)
  log ("Reading content for page: " ++ pg) "info"
  let content ← makeGraphRequest L X "GET" ("/me/onenote/pages/" ++ pg ++ "/content") .null
  pure content

def createNotebook (L : Lib) (X : Ext) (displayName : JVal) : Js JVal := do
  let dn ← liftE (toStr displayName)
  log ("Creating notebook: " ++ dn) "info"
  let data := JVal.obj [("displayName", displayName)]
  makeGraphRequest L X "POST" "/me/onenote/notebooks" data

def createSection (L : Lib) (X : Ext) (notebookId : JVal) (displayName : JVal) : Js JVal := do
  let dn ← liftE (toStr displayName)
  let nb ← liftE (toStr notebookId)
  log ("Creating section: " ++ dn ++ " in notebook: " ++ nb) "info"
  let data := JVal.obj [("displayName", displayName)]
  makeGraphRequest L X "POST" ("/me/onenote/notebooks/" ++ nb ++ "/sections") data

/-- The HTML document template of `createPage`. -/
def htmlDocument (title : String) (content : String) : String :=
  "\n    <!DOCTYPE html>\n    <html>\n    <head>\n        <title>" ++ title ++
  "</title>\n    </head>\n    <body>\n        " ++ content ++
  "\n    </body>\n    </html>"

/-- The source's `createPage`. -/
def createPage (L : Lib) (X : Ext) (sectionId : JVal) (title : JVal) (content : JVal) :
    Js JVal := do
  let t ← liftE (toStr title)
  let sec ← liftE (toStr sectionId)
  log ("Creating page: " ++ t ++ " in section: " ++ sec) "info"
  let c ← liftE (toStr content)
  let htmlContent := htmlDocument t c
  let token ← getAccessToken L X
  tryCatch
    (do
      let bearer ← liftE (toStr token)
      axios X
        { method := "POST"
          url := GRAPH_BASE_URL ++ "/me/onenote/sections/" ++ sec ++ "/pages"
          headers := [("Authorization", "Bearer " ++ bearer), ("Content-Type", "text/html")]
          data := .str htmlContent })
    (fun error => do
      let text ← liftE (toStr (errorText error))
      log ("Page creation error: " ++ text) "error"
      throw error)

/-! ## MCP protocol -/

/-- The source's `createError`. -/
def createError (id : JVal) (code : Int) (message : JVal) : JVal :=
  .obj [("jsonrpc", .str "2.0"), ("id", id),
        ("error", .obj [("code", .num code), ("message", message)])]

/-- The source's `sendResponse`: a truthy response is printed as one line on
the standard output, then logged. -/
def sendResponse (L : Lib) (response : JVal) : Js Unit :=
  if truthy response then do
    let responseStr := optStr (L.stringify response)
    emit (.stdout response)
    let text ← liftE (toStr responseStr)
    log ("Sent response: " ++ text) "debug"
  else pure ()

/-- The source's `sendError`. -/
def sendError (L : Lib) (id : JVal) (code : Int) (message : JVal) : Js Unit :=
  sendResponse L (createError id code message)

/-- The source's `handleInitialize`. -/
def handleInitialize (_params : JVal) (id : JVal) : Js JVal := do
  log "Handling initialize request" "debug"
  let response := JVal.obj
    [("jsonrpc", .str "2.0"), ("id", id),
     ("result", .obj
        [("protocolVersion", .str "2024-11-05"),
         ("capabilities", .obj [("tools", .obj []), ("logging", .obj [])]),
         ("serverInfo", .obj [("name", .str "OneNote MCP Server"), ("version", .str "1.0.0")])])]
  log "Initialize response prepared" "debug"
  pure response

/-- A `{ type: 'string', description }` schema entry. -/
def stringProperty (description : String) : JVal :=
  .obj [("type", .str "string"), ("description", .str description)]

/-- The source's `handleToolsList`. -/
def handleToolsList (id : JVal) : JVal :=
  .obj
    [("jsonrpc", .str "2.0"), ("id", id),
     ("result", .obj
        [("tools", .arr
            [.obj
               [("name", .str "onenote-read"),
                ("description", .str "Read OneNote content (notebooks, sections, pages)"),
                ("inputSchema", .obj
                   [("type", .str "object"),
                    ("properties", .obj
                       [("type", .obj
                           [("type", .str "string"),
                            ("enum", .arr [.str "list_notebooks", .str "list_sections",
                                           .str "list_pages", .str "read_content"]),
                            ("description", .str "Type of read operation")]),
                        ("notebookId", stringProperty "Notebook ID (required for list_sections)"),
                        ("sectionId", stringProperty "Section ID (required for list_pages)"),
                        ("pageId", stringProperty "Page ID (required for read_content)")]),
                    ("required", .arr [.str "type"])])],
             .obj
               [("name", .str "onenote-create"),
                ("description", .str "Create OneNote content (notebooks, sections, pages)"),
                ("inputSchema", .obj
                   [("type", .str "object"),
                    ("properties", .obj
                       [("type", .obj
                           [("type", .str "string"),
                            ("enum", .arr [.str "create_notebook", .str "create_section",
                                           .str "create_page"]),
                            ("description", .str "Type of create operation")]),
                        ("displayName", stringProperty "Display name for notebook or section"),
                        ("notebookId", stringProperty "Notebook ID (required for create_section)"),
                        ("sectionId", stringProperty "Section ID (required for create_page)"),
                        ("title", stringProperty "Page title (required for create_page)"),
                        ("content", stringProperty "HTML content for the page")]),
                    ("required", .arr [.str "type"])])]])])]

/-- The source's `handleReadCommand`. -/
def handleReadCommand (L : Lib) (X : Ext) (input : JVal) : Js JVal := do
  emit (.call "handleReadCommand")
  let type ← liftE (getProp input "type")
  if strictEqStr type "list_notebooks" then
    readNotebooks L X
  else if strictEqStr type "list_sections" then do
    let notebookId ← liftE (getProp input "notebookId")
    if !truthy notebookId then throw (mkError "notebookId is required")
    readSections L X notebookId
  else if strictEqStr type "list_pages" then do
    let sectionId ← liftE (getProp input "sectionId")
    if !truthy sectionId then throw (mkError "sectionId is required")
    readPages L X sectionId
  else if strictEqStr type "read_content" then do
    let pageId ← liftE (getProp input "pageId")
    if !truthy pageId then throw (mkError "pageId is required")
    let content ← readPageContent L X pageId
    pure (.obj [("pageId", pageId), ("content", content)])
  else do
    let t ← liftE (toStr type)
    throw (mkError ("Unknown read type: " ++ t))

/-- The source's `handleCreateCommand`. -/
def handleCreateCommand (L : Lib) (X : Ext) (input : JVal) : Js JVal := do
  emit (.call "handleCreateCommand")
  let type ← liftE (getProp input "type")
  if strictEqStr type "create_notebook" then do
    let displayName ← liftE (getProp input "displayName")
    if !truthy displayName then throw (mkError "displayName is required")
    createNotebook L X displayName
  else if strictEqStr type "create_section" then do
    let notebookId ← liftE (getProp input "notebookId")
    let displayName ← liftE (getProp input "displayName")
    if !truthy notebookId || !truthy displayName then
      throw (mkError "notebookId and displayName are required")
    createSection L X notebookId displayName
  else if strictEqStr type "create_page" then do
    let sectionId ← liftE (getProp input "sectionId")
    let title ← liftE (getProp input "title")
    if !truthy sectionId || !truthy title then
      throw (mkError "sectionId and title are required")
    let given ← liftE (getProp input "content")
    let content := if truthy given then given else JVal.str "<p>New page</p>"
    createPage L X sectionId title content
  else do
    let t ← liftE (toStr type)
    throw (mkError ("Unknown create type: " ++ t))

/-- The destructuring `const \x7b k \x7d = v`: a `TypeError` on `null` and
`undefined`. -/
def destructure (v : JVal) (k : String) (source : String) : Except JsError JVal :=
  match v with
  | .undefined =>
      .error (typeError ("Cannot destructure property '" ++ k ++ "' of '" ++ source ++
        "' as it is undefined."))
  | .null =>
      .error (typeError ("Cannot destructure property '" ++ k ++ "' of '" ++ source ++
        "' as it is null."))
  | .obj fields => .ok ((fields.lookup k).getD .undefined)
  | _ => .ok .undefined

/-- The result envelope of `handleToolCall`: the dispatcher's result as one
text item. -/
def toolResult (L : Lib) (id : JVal) (result : JVal) : JVal :=
  .obj
    [("jsonrpc", .str "2.0"), ("id", id),
     ("result", .obj
        [("content", .arr
            [.obj [("type", .str "text"), ("text", optStr (L.stringifyIndented result))]])])]

/-- The source's `handleToolCall`.  The destructuring of `params` stands before
the `try` block. -/
def handleToolCall (L : Lib) (X : Ext) (params : JVal) (id : JVal) : Js JVal := do
  let name ← liftE (destructure params "name" "params")
  let args ← liftE (destructure params "arguments" "params")
  tryCatch
    (if strictEqStr name "onenote-read" then do
      let result ← handleReadCommand L X args
      pure (toolResult L id result)
    else if strictEqStr name "onenote-create" then do
      let result ← handleCreateCommand L X args
      pure (toolResult L id result)
    else do
      let n ← liftE (toStr name)
      pure (createError id (-32602) (.str ("Unknown tool: " ++ n))))
    (fun error => pure (createError id (-32603) (.str error.message)))

/-- The source's `handleMessage`; `null` means that no response is due. -/
def handleMessage (L : Lib) (X : Ext) (message : JVal) : Js JVal := do
  emit (.call "handleMessage")
  let method ← liftE (destructure message "method" "message")
  let params ← liftE (destructure message "params" "message")
  let id ← liftE (destructure message "id" "message")
  let m ← liftE (toStr method)
  log ("Handling method: " ++ m) "debug"
  if strictEqStr method "initialize" then
    handleInitialize params id
  else if strictEqStr method "initialized" then
    pure .null
  else if strictEqStr method "notifications/initialized" then do
    log "Client initialized" "info"
    pure .null
  else if strictEqStr method "tools/list" then
    pure (handleToolsList id)
  else if strictEqStr method "tools/call" then
    handleToolCall L X params id
  else if strictEqStr method "notifications/cancelled" then do
    let requestId ← liftE (toStr (optProp params "requestId"))
    let reason ← liftE (toStr (optProp params "reason"))
    log ("Request " ++ requestId ++ " was cancelled: " ++ reason) "info"
    pure .null
  else
    pure (createError id (-32601) (.str ("Method not found: " ++ m)))

/-- The `line` handler installed by `init`: one input line is processed to
completion. -/
def onLine (L : Lib) (X : Ext) (line : String) : Js Unit :=
  tryCatch
    (do
      log ("Received: " ++ line) "debug"
      let message ← liftE (L.jsonParse line)
      let response ← handleMessage L X message
      sendResponse L response)
    (fun error => do
      log ("Error processing message: " ++ error.message) "error"
      sendError L .null (-32700) (.str "Parse error"))

/-! ## Reading traces -/

/-- The HTTP requests issued, in order. -/
def requests : List Eff → List Request
  | [] => []
  | .axios req :: rest => req :: requests rest
  | _ :: rest => requests rest

/-- The protocol lines written to the standard output, in order. -/
def responses : List Eff → List JVal
  | [] => []
  | .stdout r :: rest => r :: responses rest
  | _ :: rest => responses rest

/-- The number of device-code authentication flows started. -/
def authFlows : List Eff → Nat
  | [] => 0
  | .deviceCode _ _ :: rest => authFlows rest + 1
  | _ :: rest => authFlows rest

/-- The number of times the function `fn` was entered. -/
def callCount (fn : String) : List Eff → Nat
  | [] => 0
  | .call g :: rest => (if g = fn then 1 else 0) + callCount fn rest
  | _ :: rest => callCount fn rest

/-! ## Vocabulary of the statements -/

/-- The log lines of the device-code callback. -/
def promptLogs (X : Ext) : List Eff :=
  match X.prompt with
  | some (verificationUri, userCode) =>
      [.log "info" ("Please navigate to: " ++ verificationUri),
       .log "info" ("Enter code: " ++ userCode)]
  | none => []

/-- The effects of `getAccessToken` up to the end of the device-code flow. -/
def flowEvents (X : Ext) : List Eff :=
  [.call "getAccessToken", .log "info" "Acquiring new token via Device Code flow",
   .deviceCode SCOPES 300000] ++ promptLogs X

/-- The cached record is usable at time `now`: it is there and its `expiresOn`
is a date strictly after `now`. -/
def cacheValid (L : Lib) (c : JVal) (now : Int) : Prop :=
  truthy c = true ∧ ∃ e, newDate L (optProp c "expiresOn") = .ok (some e) ∧ now < e

/-- The cached record is absent, or its `expiresOn` is an invalid date or a
date not after `now`. -/
def cacheExpired (L : Lib) (c : JVal) (now : Int) : Prop :=
  truthy c = false ∨
    ∃ d, newDate L (optProp c "expiresOn") = .ok d ∧ ∀ e, d = some e → e ≤ now

/-! ## Concrete environments for the examples -/

/-- A credential record with the given token and expiry (a time value). -/
def record (accessToken : String) (expiresOn : Int) : JVal :=
  .obj [("accessToken", .str accessToken), ("expiresOn", .num expiresOn)]

/-- A message line of the examples. -/
def progressLine : String := "\x7b\"jsonrpc\":\"2.0\",\"method\":\"notifications/progress\"\x7d"

/-- A message line of the examples. -/
def callWithoutParamsLine : String := "\x7b\"jsonrpc\":\"2.0\",\"id\":1,\"method\":\"tools/call\"\x7d"

/-- A message line of the examples. -/
def toolsListLine : String := "\x7b\"jsonrpc\":\"2.0\",\"id\":7,\"method\":\"tools/list\"\x7d"

/-- A library for the examples: `JSON.parse` knows the example lines and
rejects every other line. -/
def exampleLib : Lib where
  jsonParse := fun line =>
    if line = progressLine then
      .ok (.obj [("jsonrpc", .str "2.0"), ("method", .str "notifications/progress")])
    else if line = callWithoutParamsLine then
      .ok (.obj [("jsonrpc", .str "2.0"), ("id", .num 1), ("method", .str "tools/call")])
    else if line = toolsListLine then
      .ok (.obj [("jsonrpc", .str "2.0"), ("id", .num 7), ("method", .str "tools/list")])
    else .error (mkError "Unexpected token in JSON")
  stringify := fun v =>
    match v with
    | .undefined => none
    | _ => some "[json]"
  stringifyIndented := fun v =>
    match v with
    | .undefined => none
    | _ => some "[json]"
  dateParse := fun _ => none

/-- An outside world at time 1000 in which the device-code flow times out and
the remote API answers every request with the list of one notebook. -/
def offlineExt : Ext where
  now := 1000
  prompt := none
  acquireTokenByDeviceCode := .error (mkError "Device code expired")
  writeFile := .ok ()
  axios := fun _ => .ok (.obj [("value", .arr [.obj [("id", .str "N1")]])])

/-- An outside world at time 1000 in which the device-code flow succeeds with a
record good until 5000, the cache file is written, and the remote API answers
every request with the list of one notebook. -/
def onlineExt : Ext where
  now := 1000
  prompt := some ("https://microsoft.com/devicelogin", "ABCD1234")
  acquireTokenByDeviceCode := .ok (record "fresh" 5000)
  writeFile := .ok ()
  axios := fun _ => .ok (.obj [("value", .arr [.obj [("id", .str "N1")]])])

/-- The world of `onlineExt`, except that the cache file cannot be written. -/
def readOnlyExt : Ext where
  now := 1000
  prompt := none
  acquireTokenByDeviceCode := .ok (record "fresh" 5000)
  writeFile := .error (mkError "EACCES: permission denied")
  axios := fun _ => .ok (.obj [("value", .arr [.obj [("id", .str "N1")]])])

/-- The error of a request the remote API refuses: status 403, with the
remote message `Access denied` in the response body. -/
def forbiddenError : JsError :=
  ⟨"Request failed with status code 403",
   .obj [("status", .num 403),
         ("data", .obj [("error", .obj [("code", .str "40001"),
                                        ("message", .str "Access denied")])])]⟩

/-- An outside world at time 1000 whose remote API refuses every request with
`forbiddenError`. -/
def forbiddenExt : Ext where
  now := 1000
  prompt := none
  acquireTokenByDeviceCode := .error (mkError "Device code expired")
  writeFile := .ok ()
  axios := fun _ => .error forbiddenError

/-- A world whose cached record is good until 2000. -/
def warmWorld : World := ⟨record "cached" 2000, []⟩

/-- A world without a cached record. -/
def coldWorld : World := ⟨.null, []⟩

/-- The arguments lack the field `k`: it is absent, or holds a falsy value
(`null`, the empty string, ...), which the validation treats alike. -/
def lacks (args : JVal) (k : String) : Prop := truthy (optProp args k) = false

/-- Every effect of the task `x` is appended to the trace and satisfies `P`. -/
def Emits (P : Eff → Prop) {α : Type} (x : Js α) : Prop :=
  ∀ w, ∃ evs, (x.run w).2.trace = w.trace ++ evs ∧ ∀ e ∈ evs, P e

/-- The effect is not an HTTP request. -/
def notRequest (e : Eff) : Prop := requests [e] = []

/-- The effect is not a protocol line. -/
def notResponse (e : Eff) : Prop := responses [e] = []

/-- The value can be converted to a string: `ToString` does not throw. -/
def printable (v : JVal) : Prop := ∃ s, toStr v = .ok s

/-- The arguments of the page creation example: section `S1`, title `T1`,
content `<p>hi</p>`. -/
def pageInput : JVal :=
  .obj [("type", .str "create_page"), ("sectionId", .str "S1"), ("title", .str "T1"),
        ("content", .str "<p>hi</p>")]

/-- The arguments of a page creation whose content is the empty string. -/
def emptyPageInput : JVal :=
  .obj [("type", .str "create_page"), ("sectionId", .str "S1"), ("title", .str "T1"),
        ("content", .str "")]

/-- The elements of an array value. -/
def items : JVal → List JVal
  | .arr xs => xs
  | _ => []

/-- The tool descriptors of a `tools/list` response: `response.result.tools`. -/
def toolDescriptors (response : JVal) : List JVal :=
  items (optProp (optProp response "result") "tools")

/-- The `type` enum of a tool descriptor:
`tool.inputSchema.properties.type.enum`. -/
def typeEnum (tool : JVal) : List JVal :=
  items (optProp (optProp (optProp (optProp tool "inputSchema") "properties") "type") "enum")

/-- The task `x` always has at least one effect. -/
def Grows {α : Type} (x : Js α) : Prop :=
  ∀ w, w.trace.length < (x.run w).2.trace.length

/-- The task either issues no HTTP request, or throws `e` and has logged an
error line that ends with `text`. -/
def SurfacesFailure (e : JsError) (text : String) {α : Type} (x : Js α) : Prop :=
  ∀ w, requests (x.run w).2.trace = requests w.trace ∨
    ((x.run w).1 = .error e ∧ ∃ pre, Eff.log "error" (pre ++ text) ∈ (x.run w).2.trace)

/-- The arguments of the failing request example. -/
def listNotebooksParams : JVal :=
  .obj [("name", .str "onenote-read"), ("arguments", .obj [("type", .str "list_notebooks")])]

/-! # Theorems -/

/-! ## Running tasks: unfolding lemmas -/

@[simp] theorem run_pure {α : Type} (a : α) (w : World) :
    (pure a : Js α).run w = (.ok a, w) := rfl

@[simp] theorem run_bind {α β : Type} (x : Js α) (f : α → Js β) (w : World) :
    (x >>= f).run w =
      match x.run w with
      | (.ok a, w1) => (f a).run w1
      | (.error e, w1) => (.error e, w1) := rfl

@[simp] theorem run_jsbind {α β : Type} (x : Js α) (f : α → Js β) (w : World) :
    (x.bind f).run w =
      match x.run w with
      | (.ok a, w1) => (f a).run w1
      | (.error e, w1) => (.error e, w1) := rfl

@[simp] theorem run_throw {α : Type} (e : JsError) (w : World) :
    (throw e : Js α).run w = (.error e, w) := rfl

@[simp] theorem run_tryCatch {α : Type} (x : Js α) (h : JsError → Js α) (w : World) :
    (tryCatch x h).run w =
      match x.run w with
      | (.ok a, w1) => (.ok a, w1)
      | (.error e, w1) => (h e).run w1 := rfl

@[simp] theorem run_liftE {α : Type} (r : Except JsError α) (w : World) :
    (liftE r).run w = (r, w) := rfl

@[simp] theorem run_emit (e : Eff) (w : World) :
    (emit e).run w = (.ok (), { w with trace := w.trace ++ [e] }) := rfl

@[simp] theorem run_log (message level : String) (w : World) :
    (log message level).run w = (.ok (), { w with trace := w.trace ++ [.log level message] }) :=
  rfl

@[simp] theorem run_readCachedToken (w : World) :
    readCachedToken.run w = (.ok w.cachedToken, w) := rfl

@[simp] theorem run_writeCachedToken (token : JVal) (w : World) :
    (writeCachedToken token).run w = (.ok (), { w with cachedToken := token }) := rfl

@[simp] theorem run_ite {α : Type} (c : Prop) [Decidable c] (x y : Js α) (w : World) :
    (if c then x else y).run w = if c then x.run w else y.run w := by
  split <;> rfl

/-! ## Reading traces: lemmas -/

theorem requests_append (a b : List Eff) : requests (a ++ b) = requests a ++ requests b := by
  induction a with
  | nil => rfl
  | cons e rest ih => cases e <;> simp [requests, ih]

theorem responses_append (a b : List Eff) : responses (a ++ b) = responses a ++ responses b := by
  induction a with
  | nil => rfl
  | cons e rest ih => cases e <;> simp [responses, ih]

theorem authFlows_append (a b : List Eff) : authFlows (a ++ b) = authFlows a + authFlows b := by
  induction a with
  | nil => simp [authFlows]
  | cons e rest ih => cases e <;> simp [authFlows, ih] <;> omega

theorem callCount_append (fn : String) (a b : List Eff) :
    callCount fn (a ++ b) = callCount fn a + callCount fn b := by
  induction a with
  | nil => simp [callCount]
  | cons e rest ih => cases e <;> simp [callCount, ih] <;> omega

/-! ## The token provider -/

theorem getProp_of_truthy (c : JVal) (k : String) (h : truthy c = true) :
    getProp c k = .ok (optProp c k) := by
  cases c <;> simp_all [truthy, getProp, optProp]

theorem acquireTokenByDeviceCode_run (X : Ext) (w : World) :
    (acquireTokenByDeviceCode X).run w =
      (X.acquireTokenByDeviceCode,
       { w with trace := w.trace ++ (.deviceCode SCOPES 300000 :: promptLogs X) }) := by
  unfold acquireTokenByDeviceCode promptLogs
  rcases h : X.prompt with _ | ⟨u, c⟩ <;> simp

theorem getAccessToken_valid (L : Lib) (X : Ext) (w : World)
    (h : cacheValid L w.cachedToken X.now) :
    (getAccessToken L X).run w =
      (.ok (optProp w.cachedToken "accessToken"),
       { w with trace := w.trace ++ [.call "getAccessToken", .log "info" "Using cached token"] }) := by
  obtain ⟨hc, e, hd, hlt⟩ := h
  simp [getAccessToken, hc, getProp_of_truthy, hd, dateAfter, hlt]

/-- The run of `getAccessToken` on an expired or absent record, by the outcome
of the flow and of the write. -/
theorem getAccessToken_expired (L : Lib) (X : Ext) (w : World)
    (h : cacheExpired L w.cachedToken X.now) :
    (getAccessToken L X).run w =
      match X.acquireTokenByDeviceCode with
      | .error e =>
          (.error e,
           { w with trace := w.trace ++ flowEvents X ++
               [.log "error" ("Authentication failed: " ++ e.message)] })
      | .ok r =>
          match X.writeFile with
          | .error e =>
              (.error e,
               { cachedToken := r
                 trace := w.trace ++ flowEvents X ++
                   [.writeFile (optStr (L.stringifyIndented r)),
                    .log "error" ("Authentication failed: " ++ e.message)] })
          | .ok _ =>
              match getProp r "accessToken" with
              | .error e =>
                  (.error e,
                   { cachedToken := r
                     trace := w.trace ++ flowEvents X ++
                       [.writeFile (optStr (L.stringifyIndented r)), .log "info" "Token cached",
                        .log "info" "Authentication successful",
                        .log "error" ("Authentication failed: " ++ e.message)] })
              | .ok token =>
                  (.ok token,
                   { cachedToken := r
                     trace := w.trace ++ flowEvents X ++
                       [.writeFile (optStr (L.stringifyIndented r)), .log "info" "Token cached",
                        .log "info" "Authentication successful"] }) := by
  have key : truthy w.cachedToken = false ∨ (truthy w.cachedToken = true ∧
      ∃ d, newDate L (optProp w.cachedToken "expiresOn") = .ok d ∧ dateAfter d X.now = false) := by
    rcases h with hc | ⟨d, hd, hle⟩
    · exact Or.inl hc
    · by_cases hc : truthy w.cachedToken = true
      · refine Or.inr ⟨hc, d, hd, ?_⟩
        cases d with
        | none => rfl
        | some e => simpa [dateAfter] using hle e rfl
      · exact Or.inl (by simpa using hc)
  rcases ha : X.acquireTokenByDeviceCode with e | r
  · rcases key with hc | ⟨hc, d, hd, hv⟩ <;>
      simp [*, getAccessToken, getProp_of_truthy, acquireTokenByDeviceCode_run, flowEvents]
  · rcases hw : X.writeFile with e | u
    · rcases key with hc | ⟨hc, d, hd, hv⟩ <;>
        simp [*, getAccessToken, getProp_of_truthy, acquireTokenByDeviceCode_run,
          saveCachedToken, flowEvents]
    · rcases hg : getProp r "accessToken" with e | token <;>
        rcases key with hc | ⟨hc, d, hd, hv⟩ <;>
        simp [*, getAccessToken, getProp_of_truthy, acquireTokenByDeviceCode_run,
          saveCachedToken, flowEvents]

theorem authFlows_promptLogs (X : Ext) : authFlows (promptLogs X) = 0 := by
  unfold promptLogs
  rcases X.prompt with _ | ⟨u, c⟩ <;> simp [authFlows]

theorem requests_promptLogs (X : Ext) : requests (promptLogs X) = [] := by
  unfold promptLogs
  rcases X.prompt with _ | ⟨u, c⟩ <;> simp [requests]

theorem responses_promptLogs (X : Ext) : responses (promptLogs X) = [] := by
  unfold promptLogs
  rcases X.prompt with _ | ⟨u, c⟩ <;> simp [responses]

theorem getAccessToken_expired_authFlows (L : Lib) (X : Ext) (w : World)
    (h : cacheExpired L w.cachedToken X.now) :
    authFlows ((getAccessToken L X).run w).2.trace = authFlows w.trace + 1 := by
  rw [getAccessToken_expired L X w h]
  rcases X.acquireTokenByDeviceCode with e | r
  · simp [authFlows_append, flowEvents, authFlows_promptLogs, authFlows]
  · rcases X.writeFile with e | u
    · simp [authFlows_append, flowEvents, authFlows_promptLogs, authFlows]
    · rcases hg : getProp r "accessToken" with e | token <;>
        simp [hg, authFlows_append, flowEvents, authFlows_promptLogs, authFlows]

theorem cacheExpired_of_not_after (L : Lib) (c : JVal) (now : Int) (d : Option Int)
    (hd : newDate L (optProp c "expiresOn") = .ok d) (hv : ¬ dateAfter d now = true) :
    cacheExpired L c now := by
  refine Or.inr ⟨d, hd, ?_⟩
  intro e he
  subst he
  simpa [dateAfter] using hv

theorem getAccessToken_authFlows_le (L : Lib) (X : Ext) (w : World) :
    authFlows ((getAccessToken L X).run w).2.trace ≤ authFlows w.trace + 1 := by
  by_cases hc : truthy w.cachedToken = true
  · rcases hd : newDate L (optProp w.cachedToken "expiresOn") with e | d
    · simp [getAccessToken, hc, getProp_of_truthy, hd, authFlows_append, authFlows]
    · by_cases hv : dateAfter d X.now = true
      · simp [getAccessToken, hc, getProp_of_truthy, hd, hv, authFlows_append, authFlows]
      · exact le_of_eq (getAccessToken_expired_authFlows L X w
          (cacheExpired_of_not_after L _ _ d hd hv))
  · exact le_of_eq (getAccessToken_expired_authFlows L X w (Or.inl (by simpa using hc)))

/-- C6. Two consecutive `getAccessToken` calls at times `X1.now ≤ X2.now`, from
any cache state: if the record held after the first call expires strictly
after the second check time, at most one device-code flow is started in total;
if the record cached at the start already expires strictly after the second
check time, no flow is started, both calls return the cached `accessToken`,
and the cache is unchanged after each call. -/
theorem getAccessToken_twice_at_most_one_flow (L : Lib) (X1 X2 : Ext) (w : World)
    (ht : X1.now ≤ X2.now) :
    (cacheValid L ((getAccessToken L X1).run w).2.cachedToken X2.now →
      authFlows ((getAccessToken L X2).run ((getAccessToken L X1).run w).2).2.trace
        ≤ authFlows w.trace + 1) ∧
    (cacheValid L w.cachedToken X2.now →
      authFlows ((getAccessToken L X2).run ((getAccessToken L X1).run w).2).2.trace
        = authFlows w.trace ∧
      ((getAccessToken L X1).run w).1 = .ok (optProp w.cachedToken "accessToken") ∧
      ((getAccessToken L X2).run ((getAccessToken L X1).run w).2).1
        = .ok (optProp w.cachedToken "accessToken") ∧
      ((getAccessToken L X1).run w).2.cachedToken = w.cachedToken ∧
      ((getAccessToken L X2).run ((getAccessToken L X1).run w).2).2.cachedToken
        = w.cachedToken) := by
  constructor
  · intro h
    have h1 := getAccessToken_authFlows_le L X1 w
    rw [getAccessToken_valid L X2 _ h]
    simp [authFlows_append, authFlows]
    exact h1
  · intro h
    have h1 : cacheValid L w.cachedToken X1.now := by
      obtain ⟨hc, e, hd, hlt⟩ := h
      exact ⟨hc, e, hd, lt_of_le_of_lt ht hlt⟩
    rw [getAccessToken_valid L X1 w h1]
    have h2 : cacheValid L
        ({ w with trace := w.trace ++ [.call "getAccessToken", .log "info" "Using cached token"] }
          : World).cachedToken X2.now := h
    rw [getAccessToken_valid L X2 _ h2]
    simp [authFlows_append, authFlows]

theorem getAccessToken_twice_at_most_one_flow_witness :
    onlineExt.now ≤ onlineExt.now ∧
    cacheValid exampleLib ((getAccessToken exampleLib onlineExt).run coldWorld).2.cachedToken
      onlineExt.now ∧
    authFlows ((getAccessToken exampleLib onlineExt).run
      ((getAccessToken exampleLib onlineExt).run coldWorld).2).2.trace
        ≤ authFlows coldWorld.trace + 1 :=
  ⟨le_refl _, ⟨rfl, 5000, rfl, by decide⟩,
   (getAccessToken_twice_at_most_one_flow exampleLib onlineExt onlineExt coldWorld
      (le_refl _)).1 ⟨rfl, 5000, rfl, by decide⟩⟩

/-- C7, as amended. One `getAccessToken` call.  With a cached record whose
`expiresOn` is strictly after the check time no device-code flow is started,
the cached `accessToken` is returned and the cache is unchanged.  With the
record absent, or its `expiresOn` an invalid date or not strictly after the
check time (equal counts as expired), exactly one flow is started and it is
not retried: when the flow fails its error is thrown and the cache is
unchanged; when the flow succeeds the cache becomes its result, whose
`accessToken` is returned if the cache file is written, while a failed write
throws its error. -/
theorem getAccessToken_single_flow (L : Lib) (X : Ext) (w : World) :
    (cacheValid L w.cachedToken X.now →
      authFlows ((getAccessToken L X).run w).2.trace = authFlows w.trace ∧
      ((getAccessToken L X).run w).1 = .ok (optProp w.cachedToken "accessToken") ∧
      ((getAccessToken L X).run w).2.cachedToken = w.cachedToken) ∧
    (cacheExpired L w.cachedToken X.now →
      authFlows ((getAccessToken L X).run w).2.trace = authFlows w.trace + 1 ∧
      (∀ e, X.acquireTokenByDeviceCode = .error e →
        ((getAccessToken L X).run w).1 = .error e ∧
        ((getAccessToken L X).run w).2.cachedToken = w.cachedToken) ∧
      (∀ r, X.acquireTokenByDeviceCode = .ok r →
        ((getAccessToken L X).run w).2.cachedToken = r ∧
        (X.writeFile = .ok () →
          ((getAccessToken L X).run w).1 = getProp r "accessToken") ∧
        (∀ e, X.writeFile = .error e → ((getAccessToken L X).run w).1 = .error e))) := by
  constructor
  · intro h
    rw [getAccessToken_valid L X w h]
    simp [authFlows_append, authFlows]
  · intro h
    refine ⟨getAccessToken_expired_authFlows L X w h, ?_, ?_⟩
    · intro e he
      rw [getAccessToken_expired L X w h, he]
      exact ⟨rfl, rfl⟩
    · intro r hr
      rw [getAccessToken_expired L X w h, hr]
      refine ⟨?_, ?_, ?_⟩
      · rcases hw : X.writeFile with e | u
        · simp
        · rcases hg : getProp r "accessToken" with e | token <;> simp [hg]
      · intro hw
        rcases hg : getProp r "accessToken" with e | token <;> simp [hw, hg]
      · intro e hw
        simp [hw]

theorem getAccessToken_single_flow_witness :
    (cacheValid exampleLib warmWorld.cachedToken offlineExt.now ∧
      authFlows ((getAccessToken exampleLib offlineExt).run warmWorld).2.trace
        = authFlows warmWorld.trace) ∧
    (cacheExpired exampleLib (record "old" 1000) onlineExt.now ∧
      authFlows ((getAccessToken exampleLib onlineExt).run ⟨record "old" 1000, []⟩).2.trace
        = authFlows ([] : List Eff) + 1) :=
  ⟨⟨⟨rfl, 2000, rfl, by decide⟩,
    ((getAccessToken_single_flow exampleLib offlineExt warmWorld).1
      ⟨rfl, 2000, rfl, by decide⟩).1⟩,
   ⟨Or.inr ⟨some 1000, rfl, by intro e he; cases he; decide⟩,
    ((getAccessToken_single_flow exampleLib onlineExt ⟨record "old" 1000, []⟩).2
      (Or.inr ⟨some 1000, rfl, by intro e he; cases he; decide⟩)).1⟩⟩

/-- C7, counterexample. The cache is empty, the device-code flow succeeds with
a record, and the cache file cannot be written: one flow is started and the
cache holds the new record, yet the call throws the write error instead of
returning the record's `accessToken`. -/
theorem getAccessToken_write_failure :
    readOnlyExt.acquireTokenByDeviceCode = .ok (record "fresh" 5000) ∧
    ((getAccessToken exampleLib readOnlyExt).run coldWorld).1
      = .error (mkError "EACCES: permission denied") ∧
    ((getAccessToken exampleLib readOnlyExt).run coldWorld).2.cachedToken
      = record "fresh" 5000 ∧
    authFlows ((getAccessToken exampleLib readOnlyExt).run coldWorld).2.trace = 1 :=
  ⟨rfl, rfl, rfl, rfl⟩

/-! ## The protocol adapter -/

theorem destructure_of_optProp_str (v : JVal) (k source s : String)
    (h : optProp v k = .str s) : destructure v k source = .ok (.str s) := by
  cases v <;> simp_all [optProp, destructure]

theorem destructure_of_obj (v : JVal) (k k2 source s : String)
    (h : optProp v k2 = .str s) : destructure v k source = .ok (optProp v k) := by
  cases v <;> simp_all [optProp, destructure]

theorem getProp_of_obj (v : JVal) (k k2 s : String)
    (h : optProp v k2 = .str s) : getProp v k = .ok (optProp v k) := by
  cases v <;> simp_all [optProp, getProp]

/-- C4. An input line that `JSON.parse` rejects: the line handler writes
exactly one response, the JSON-RPC error with code -32700 and id `null`, and
`handleMessage` is not entered. -/
theorem onLine_malformed (L : Lib) (X : Ext) (line : String) (w : World) (e : JsError)
    (h : L.jsonParse line = .error e) :
    responses ((onLine L X line).run w).2.trace
      = responses w.trace ++
          [.obj [("jsonrpc", .str "2.0"), ("id", .null),
                 ("error", .obj [("code", .num (-32700)), ("message", .str "Parse error")])]] ∧
    callCount "handleMessage" ((onLine L X line).run w).2.trace
      = callCount "handleMessage" w.trace ∧
    ((onLine L X line).run w).1 = .ok () := by
  simp [onLine, h, sendError, sendResponse, createError, truthy, responses_append, responses,
    callCount_append, callCount]
  rcases L.stringify _ with _ | s <;> simp [optStr, toStr, responses_append, responses,
    callCount_append, callCount]

theorem onLine_malformed_witness :
    exampleLib.jsonParse "not json" = .error (mkError "Unexpected token in JSON") ∧
    responses ((onLine exampleLib offlineExt "not json").run coldWorld).2.trace
      = responses coldWorld.trace ++
          [.obj [("jsonrpc", .str "2.0"), ("id", .null),
                 ("error", .obj [("code", .num (-32700)), ("message", .str "Parse error")])]] :=
  ⟨rfl, (onLine_malformed exampleLib offlineExt "not json" coldWorld _ rfl).1⟩

/-- The result envelope or the error response `handleToolCall` makes of the
outcome of a dispatcher. -/
theorem handleToolCall_read (L : Lib) (X : Ext) (w : World) (params id : JVal)
    (hname : optProp params "name" = .str "onenote-read") :
    (handleToolCall L X params id).run w =
      match (handleReadCommand L X (optProp params "arguments")).run w with
      | (.ok result, w1) => (.ok (toolResult L id result), w1)
      | (.error e, w1) => (.ok (createError id (-32603) (.str e.message)), w1) := by
  have h1 := destructure_of_optProp_str params "name" "params" _ hname
  have h2 := destructure_of_obj params "arguments" "name" "params" _ hname
  simp only [handleToolCall, run_bind, run_liftE, h1, h2, run_tryCatch]
  simp [strictEqStr]
  rcases (handleReadCommand L X (optProp params "arguments")).run w with ⟨r | r, w1⟩ <;> simp

theorem handleToolCall_create (L : Lib) (X : Ext) (w : World) (params id : JVal)
    (hname : optProp params "name" = .str "onenote-create") :
    (handleToolCall L X params id).run w =
      match (handleCreateCommand L X (optProp params "arguments")).run w with
      | (.ok result, w1) => (.ok (toolResult L id result), w1)
      | (.error e, w1) => (.ok (createError id (-32603) (.str e.message)), w1) := by
  have h1 := destructure_of_optProp_str params "name" "params" _ hname
  have h2 := destructure_of_obj params "arguments" "name" "params" _ hname
  simp only [handleToolCall, run_bind, run_liftE, h1, h2, run_tryCatch]
  simp [strictEqStr]
  rcases (handleCreateCommand L X (optProp params "arguments")).run w with ⟨r | r, w1⟩ <;> simp

/-- C10. A `tools/call` request naming `onenote-read` or `onenote-create`:
`handleToolCall` always returns a response with the request's id and throws
nothing.  When the dispatcher returns `result`, the response is the result
envelope whose content is the single item of type `text` holding
`JSON.stringify(result, null, 2)`; when the dispatcher throws, it is the
JSON-RPC error with code -32603 and the thrown error's message. -/
theorem handleToolCall_wraps_dispatcher (L : Lib) (X : Ext) (w : World) (params id : JVal)
    (tool : String) (hname : optProp params "name" = .str tool)
    (htool : tool = "onenote-read" ∨ tool = "onenote-create") :
    (handleToolCall L X params id).run w =
      match (if tool = "onenote-read" then handleReadCommand L X (optProp params "arguments")
             else handleCreateCommand L X (optProp params "arguments")).run w with
      | (.ok result, w1) =>
          (.ok (.obj [("jsonrpc", .str "2.0"), ("id", id),
                      ("result", .obj [("content", .arr
                         [.obj [("type", .str "text"),
                                ("text", optStr (L.stringifyIndented result))]])])]),
           w1)
      | (.error e, w1) =>
          (.ok (.obj [("jsonrpc", .str "2.0"), ("id", id),
                      ("error", .obj [("code", .num (-32603)), ("message", .str e.message)])]),
           w1) := by
  rcases htool with rfl | rfl
  · rw [handleToolCall_read L X w params id hname]
    simp [toolResult, createError]
  · rw [handleToolCall_create L X w params id hname]
    simp [toolResult, createError]

theorem handleToolCall_wraps_dispatcher_witness :
    optProp (.obj [("name", .str "onenote-read"),
                   ("arguments", .obj [("type", .str "list_notebooks")])]) "name"
      = .str "onenote-read" ∧
    ("onenote-read" = "onenote-read" ∨ "onenote-read" = "onenote-create") ∧
    ((handleToolCall exampleLib offlineExt
        (.obj [("name", .str "onenote-read"),
               ("arguments", .obj [("type", .str "list_notebooks")])]) (.num 3)).run warmWorld).1
      = .ok (.obj [("jsonrpc", .str "2.0"), ("id", .num 3),
                   ("result", .obj [("content", .arr
                      [.obj [("type", .str "text"), ("text", .str "[json]")]])])]) :=
  ⟨rfl, Or.inl rfl,
   (congrArg Prod.fst (handleToolCall_wraps_dispatcher exampleLib offlineExt warmWorld
      (.obj [("name", .str "onenote-read"),
             ("arguments", .obj [("type", .str "list_notebooks")])]) (.num 3)
      "onenote-read" rfl (Or.inl rfl))).trans rfl⟩

/-- C1. A `tools/call` request naming `onenote-read` or `onenote-create` whose
arguments lack a field required by their `type`: `handleToolCall` returns the
JSON-RPC error with code -32603 and the request's id, and on the way
`getAccessToken` is not entered, no device-code flow is started and no HTTP
request is issued. -/
theorem handleToolCall_missing_field (L : Lib) (X : Ext) (w : World) (params id : JVal)
    (h : (optProp params "name" = .str "onenote-read" ∧
           ((optProp (optProp params "arguments") "type" = .str "list_sections" ∧
               lacks (optProp params "arguments") "notebookId") ∨
            (optProp (optProp params "arguments") "type" = .str "list_pages" ∧
               lacks (optProp params "arguments") "sectionId") ∨
            (optProp (optProp params "arguments") "type" = .str "read_content" ∧
               lacks (optProp params "arguments") "pageId"))) ∨
         (optProp params "name" = .str "onenote-create" ∧
           ((optProp (optProp params "arguments") "type" = .str "create_notebook" ∧
               lacks (optProp params "arguments") "displayName") ∨
            (optProp (optProp params "arguments") "type" = .str "create_section" ∧
               (lacks (optProp params "arguments") "notebookId" ∨
                lacks (optProp params "arguments") "displayName")) ∨
            (optProp (optProp params "arguments") "type" = .str "create_page" ∧
               (lacks (optProp params "arguments") "sectionId" ∨
                lacks (optProp params "arguments") "title"))))) :
    (∃ message,
      ((handleToolCall L X params id).run w).1
        = .ok (.obj [("jsonrpc", .str "2.0"), ("id", id),
                     ("error", .obj [("code", .num (-32603)), ("message", .str message)])])) ∧
    callCount "getAccessToken" ((handleToolCall L X params id).run w).2.trace
      = callCount "getAccessToken" w.trace ∧
    authFlows ((handleToolCall L X params id).run w).2.trace = authFlows w.trace ∧
    requests ((handleToolCall L X params id).run w).2.trace = requests w.trace := by
  unfold lacks at h
  rcases h with ⟨hname, h⟩ | ⟨hname, h⟩
  · rw [handleToolCall_read L X w params id hname]
    rcases h with ⟨ht, hl⟩ | ⟨ht, hl⟩ | ⟨ht, hl⟩ <;>
      simp [createError, handleReadCommand, getProp_of_obj _ _ _ _ ht, ht, strictEqStr, hl,
        mkError, callCount_append, callCount, authFlows_append, authFlows, requests_append,
        requests]
  · rw [handleToolCall_create L X w params id hname]
    rcases h with ⟨ht, hl⟩ | ⟨ht, hl | hl⟩ | ⟨ht, hl | hl⟩ <;>
      simp [createError, handleCreateCommand, getProp_of_obj _ _ _ _ ht, ht, strictEqStr, hl,
        mkError, callCount_append, callCount, authFlows_append, authFlows, requests_append,
        requests]

theorem handleToolCall_missing_field_witness :
    lacks (optProp (.obj [("name", .str "onenote-read"),
                          ("arguments", .obj [("type", .str "list_sections")])]) "arguments")
      "notebookId" ∧
    requests ((handleToolCall exampleLib onlineExt
        (.obj [("name", .str "onenote-read"),
               ("arguments", .obj [("type", .str "list_sections")])]) (.num 4)).run
        coldWorld).2.trace = requests coldWorld.trace :=
  ⟨rfl,
   (handleToolCall_missing_field exampleLib onlineExt coldWorld
      (.obj [("name", .str "onenote-read"),
             ("arguments", .obj [("type", .str "list_sections")])]) (.num 4)
      (Or.inl ⟨rfl, Or.inl ⟨rfl, rfl⟩⟩)).2.2.2⟩

/-- C5, at the failing input. A `tools/call` request with id 1 and no `params`
carries no tool name.  `handleToolCall` throws the `TypeError` of the
destructuring, ahead of its `try` block, and the line handler answers with the
parse error -32700 and id `null` where the claim has -32602 and id 1. -/
theorem toolsCall_without_params_parse_error :
    exampleLib.jsonParse callWithoutParamsLine
      = .ok (.obj [("jsonrpc", .str "2.0"), ("id", .num 1), ("method", .str "tools/call")]) ∧
    ((handleToolCall exampleLib offlineExt .undefined (.num 1)).run coldWorld).1
      = .error (typeError
          "Cannot destructure property 'name' of 'params' as it is undefined.") ∧
    responses ((onLine exampleLib offlineExt callWithoutParamsLine).run coldWorld).2.trace
      = [.obj [("jsonrpc", .str "2.0"), ("id", .null),
               ("error", .obj [("code", .num (-32700)), ("message", .str "Parse error")])]] :=
  ⟨rfl, rfl, rfl⟩

/-! ## Which effects a task has -/

theorem emits_pure (P : Eff → Prop) {α : Type} (a : α) : Emits P (pure a : Js α) :=
  fun w => ⟨[], by simp, by simp⟩

theorem emits_throw (P : Eff → Prop) {α : Type} (e : JsError) : Emits P (throw e : Js α) :=
  fun w => ⟨[], by simp, by simp⟩

theorem emits_liftE (P : Eff → Prop) {α : Type} (r : Except JsError α) : Emits P (liftE r) :=
  fun w => ⟨[], by simp, by simp⟩

theorem emits_readCachedToken (P : Eff → Prop) : Emits P readCachedToken :=
  fun w => ⟨[], by simp, by simp⟩

theorem emits_writeCachedToken (P : Eff → Prop) (t : JVal) : Emits P (writeCachedToken t) :=
  fun w => ⟨[], by simp, by simp⟩

theorem emits_emit (P : Eff → Prop) (e : Eff) (h : P e) : Emits P (emit e) :=
  fun w => ⟨[e], by simp, by simpa using h⟩

theorem emits_log (P : Eff → Prop) (message level : String) (h : P (.log level message)) :
    Emits P (log message level) :=
  emits_emit P _ h

theorem emits_bind (P : Eff → Prop) {α β : Type} (x : Js α) (f : α → Js β)
    (hx : Emits P x) (hf : ∀ a, Emits P (f a)) : Emits P (x >>= f) := by
  intro w
  obtain ⟨evs, h1, h2⟩ := hx w
  rw [run_bind]
  rcases hr : x.run w with ⟨a | a, w1⟩
  · rw [hr] at h1
    exact ⟨evs, h1, h2⟩
  · rw [hr] at h1
    obtain ⟨evs2, h3, h4⟩ := hf a w1
    refine ⟨evs ++ evs2, ?_, ?_⟩
    · simp only [h3]
      simp at h1
      rw [h1, List.append_assoc]
    · intro e he
      rcases List.mem_append.1 he with h | h
      · exact h2 e h
      · exact h4 e h

theorem emits_tryCatch (P : Eff → Prop) {α : Type} (x : Js α) (h : JsError → Js α)
    (hx : Emits P x) (hh : ∀ e, Emits P (h e)) : Emits P (tryCatch x h) := by
  intro w
  obtain ⟨evs, h1, h2⟩ := hx w
  rw [run_tryCatch]
  rcases hr : x.run w with ⟨a | a, w1⟩
  · rw [hr] at h1
    obtain ⟨evs2, h3, h4⟩ := hh a w1
    refine ⟨evs ++ evs2, ?_, ?_⟩
    · simp only [h3]
      simp at h1
      rw [h1, List.append_assoc]
    · intro e he
      rcases List.mem_append.1 he with h | h
      · exact h2 e h
      · exact h4 e h
  · rw [hr] at h1
    exact ⟨evs, h1, h2⟩

theorem emits_ite (P : Eff → Prop) {α : Type} (c : Prop) [Decidable c] (x y : Js α)
    (hx : Emits P x) (hy : Emits P y) : Emits P (if c then x else y) := by
  split
  · exact hx
  · exact hy

theorem getAccessToken_emits (P : Eff → Prop) (L : Lib) (X : Ext)
    (hlog : ∀ l m, P (.log l m)) (hcall : ∀ f, P (.call f))
    (hdev : ∀ s t, P (.deviceCode s t)) (hwr : ∀ d, P (.writeFile d)) :
    Emits P (getAccessToken L X) := by
  unfold getAccessToken saveCachedToken acquireTokenByDeviceCode
  repeat' first
    | with_reducible refine emits_bind _ _ _ ?_ (fun _ => ?_)
    | with_reducible refine emits_tryCatch _ _ _ ?_ (fun _ => ?_)
    | with_reducible refine emits_ite _ _ _ _ ?_ ?_
    | with_reducible exact emits_pure P _
    | with_reducible exact emits_throw P _
    | with_reducible exact emits_liftE P _
    | with_reducible exact emits_readCachedToken P
    | with_reducible exact emits_writeCachedToken P _
    | with_reducible refine emits_log P _ _ ?_
    | with_reducible refine emits_emit P _ ?_
    | with_reducible refine emits_emit P _ ?_
    | with_reducible refine emits_emit P _ ?_
    | exact hlog _ _
    | exact hcall _
    | exact hdev _ _
    | exact hwr _
    | split

theorem getAccessToken_emits_of (P : Eff → Prop) (L : Lib) (X : Ext)
    (hP : ∀ e, notResponse e → P e) : Emits P (getAccessToken L X) :=
  getAccessToken_emits P L X (fun _ _ => hP _ rfl) (fun _ => hP _ rfl) (fun _ _ => hP _ rfl)
    (fun _ => hP _ rfl)

theorem makeGraphRequest_emits (P : Eff → Prop) (L : Lib) (X : Ext)
    (hP : ∀ e, notResponse e → P e) (method endpoint : String) (data : JVal) :
    Emits P (makeGraphRequest L X method endpoint data) := by
  unfold makeGraphRequest axios
  repeat' first
    | with_reducible refine emits_bind _ _ _ ?_ (fun _ => ?_)
    | with_reducible refine emits_tryCatch _ _ _ ?_ (fun _ => ?_)
    | with_reducible refine emits_ite _ _ _ _ ?_ ?_
    | with_reducible exact emits_pure P _
    | with_reducible exact emits_throw P _
    | with_reducible exact emits_liftE P _
    | with_reducible refine emits_log P _ _ ?_
    | with_reducible refine emits_emit P _ ?_
    | with_reducible exact getAccessToken_emits_of P L X hP
    | exact hP _ rfl

theorem createPage_emits (P : Eff → Prop) (L : Lib) (X : Ext)
    (hP : ∀ e, notResponse e → P e) (sectionId title content : JVal) :
    Emits P (createPage L X sectionId title content) := by
  unfold createPage axios
  repeat' first
    | with_reducible refine emits_bind _ _ _ ?_ (fun _ => ?_)
    | with_reducible refine emits_tryCatch _ _ _ ?_ (fun _ => ?_)
    | with_reducible refine emits_ite _ _ _ _ ?_ ?_
    | with_reducible exact emits_pure P _
    | with_reducible exact emits_throw P _
    | with_reducible exact emits_liftE P _
    | with_reducible refine emits_log P _ _ ?_
    | with_reducible refine emits_emit P _ ?_
    | with_reducible exact getAccessToken_emits_of P L X hP
    | exact hP _ rfl

theorem handleReadCommand_emits (P : Eff → Prop) (L : Lib) (X : Ext)
    (hP : ∀ e, notResponse e → P e) (input : JVal) :
    Emits P (handleReadCommand L X input) := by
  unfold handleReadCommand readNotebooks readSections readPages readPageContent
  repeat' first
    | with_reducible refine emits_bind _ _ _ ?_ (fun _ => ?_)
    | with_reducible refine emits_tryCatch _ _ _ ?_ (fun _ => ?_)
    | with_reducible refine emits_ite _ _ _ _ ?_ ?_
    | with_reducible exact emits_pure P _
    | with_reducible exact emits_throw P _
    | with_reducible exact emits_liftE P _
    | with_reducible refine emits_log P _ _ ?_
    | with_reducible refine emits_emit P _ ?_
    | with_reducible exact makeGraphRequest_emits P L X hP _ _ _
    | exact hP _ rfl

theorem handleCreateCommand_emits (P : Eff → Prop) (L : Lib) (X : Ext)
    (hP : ∀ e, notResponse e → P e) (input : JVal) :
    Emits P (handleCreateCommand L X input) := by
  unfold handleCreateCommand createNotebook createSection
  repeat' first
    | with_reducible refine emits_bind _ _ _ ?_ (fun _ => ?_)
    | with_reducible refine emits_tryCatch _ _ _ ?_ (fun _ => ?_)
    | with_reducible refine emits_ite _ _ _ _ ?_ ?_
    | with_reducible exact emits_pure P _
    | with_reducible exact emits_throw P _
    | with_reducible exact emits_liftE P _
    | with_reducible refine emits_log P _ _ ?_
    | with_reducible refine emits_emit P _ ?_
    | with_reducible exact makeGraphRequest_emits P L X hP _ _ _
    | with_reducible exact createPage_emits P L X hP _ _ _
    | exact hP _ rfl

theorem handleToolCall_emits (P : Eff → Prop) (L : Lib) (X : Ext)
    (hP : ∀ e, notResponse e → P e) (params id : JVal) :
    Emits P (handleToolCall L X params id) := by
  unfold handleToolCall
  repeat' first
    | with_reducible refine emits_bind _ _ _ ?_ (fun _ => ?_)
    | with_reducible refine emits_tryCatch _ _ _ ?_ (fun _ => ?_)
    | with_reducible refine emits_ite _ _ _ _ ?_ ?_
    | with_reducible exact emits_pure P _
    | with_reducible exact emits_throw P _
    | with_reducible exact emits_liftE P _
    | with_reducible refine emits_log P _ _ ?_
    | with_reducible refine emits_emit P _ ?_
    | with_reducible exact handleReadCommand_emits P L X hP _
    | with_reducible exact handleCreateCommand_emits P L X hP _
    | exact hP _ rfl

theorem responses_of_emits {α : Type} (x : Js α) (h : Emits notResponse x) (w : World) :
    responses (x.run w).2.trace = responses w.trace := by
  obtain ⟨evs, h1, h2⟩ := h w
  rw [h1, responses_append]
  have : responses evs = [] := by
    clear h1
    induction evs with
    | nil => rfl
    | cons e rest ih =>
        have he : responses [e] = [] := h2 e (by simp)
        have hr := ih (fun e he => h2 e (by simp [he]))
        have : responses (e :: rest) = responses ([e] ++ rest) := rfl
        rw [this, responses_append, he, hr]
        rfl
  simp [this]

theorem requests_of_emits {α : Type} (x : Js α) (h : Emits notRequest x) (w : World) :
    requests (x.run w).2.trace = requests w.trace := by
  obtain ⟨evs, h1, h2⟩ := h w
  rw [h1, requests_append]
  have : requests evs = [] := by
    clear h1
    induction evs with
    | nil => rfl
    | cons e rest ih =>
        have he : requests [e] = [] := h2 e (by simp)
        have hr := ih (fun e he => h2 e (by simp [he]))
        have : requests (e :: rest) = requests ([e] ++ rest) := rfl
        rw [this, requests_append, he, hr]
        rfl
  simp [this]

/-! ## Responses of the line handler -/

theorem destructure_of_not_nullish (v : JVal) (k source : String) (h : nullish v = false) :
    destructure v k source = .ok (optProp v k) := by
  cases v <;> simp_all [nullish, optProp, destructure]

theorem handleInitialize_emits (P : Eff → Prop) (hP : ∀ e, notResponse e → P e)
    (params id : JVal) : Emits P (handleInitialize params id) := by
  unfold handleInitialize
  repeat' first
    | with_reducible refine emits_bind _ _ _ ?_ (fun _ => ?_)
    | with_reducible exact emits_pure P _
    | with_reducible refine emits_log P _ _ ?_
    | exact hP _ rfl

theorem handleMessage_emits (P : Eff → Prop) (L : Lib) (X : Ext)
    (hP : ∀ e, notResponse e → P e) (message : JVal) :
    Emits P (handleMessage L X message) := by
  unfold handleMessage
  repeat' first
    | with_reducible refine emits_bind _ _ _ ?_ (fun _ => ?_)
    | with_reducible refine emits_tryCatch _ _ _ ?_ (fun _ => ?_)
    | with_reducible refine emits_ite _ _ _ _ ?_ ?_
    | with_reducible exact emits_pure P _
    | with_reducible exact emits_throw P _
    | with_reducible exact emits_liftE P _
    | with_reducible refine emits_log P _ _ ?_
    | with_reducible refine emits_emit P _ ?_
    | with_reducible exact handleToolCall_emits P L X hP _ _
    | with_reducible exact handleInitialize_emits P hP _ _
    | exact hP _ rfl

theorem optProp_createError_id (id : JVal) (code : Int) (message : JVal) :
    optProp (createError id code message) "id" = id := rfl

theorem optProp_toolResult_id (L : Lib) (id result : JVal) :
    optProp (toolResult L id result) "id" = id := rfl

theorem truthy_createError (id : JVal) (code : Int) (message : JVal) :
    truthy (createError id code message) = true := rfl

theorem truthy_toolResult (L : Lib) (id result : JVal) :
    truthy (toolResult L id result) = true := rfl

/-- With `params` present, `handleToolCall` returns a response that carries
the request's id. -/
theorem handleToolCall_returns (L : Lib) (X : Ext) (w : World) (params id : JVal)
    (hp : nullish params = false) :
    ∃ r, ((handleToolCall L X params id).run w).1 = .ok r ∧ truthy r = true ∧
      optProp r "id" = id := by
  simp only [handleToolCall, run_bind, run_liftE, destructure_of_not_nullish _ _ _ hp,
    run_tryCatch]
  by_cases h1 : strictEqStr (optProp params "name") "onenote-read" = true
  · simp only [h1, if_true, run_bind]
    rcases hrun : (handleReadCommand L X (optProp params "arguments")).run w
      with ⟨r | r, w1⟩ <;>
      simp [hrun, optProp_createError_id, optProp_toolResult_id, truthy_createError,
        truthy_toolResult]
  · by_cases h2 : strictEqStr (optProp params "name") "onenote-create" = true
    · simp only [h1, h2, if_true, if_false, run_bind]
      rcases hrun : (handleCreateCommand L X (optProp params "arguments")).run w
        with ⟨r | r, w1⟩ <;>
        simp [hrun, optProp_createError_id, optProp_toolResult_id, truthy_createError,
          truthy_toolResult]
    · simp only [h1, h2, if_false, run_bind, run_liftE]
      rcases hn : toStr (optProp params "name") with e | n <;>
        simp [hn, optProp_createError_id, truthy_createError]

/-- The protocol lines one input line produces, from the outcome of
`handleMessage`: a truthy returned response is written, a thrown error is
answered by the parse error. -/
theorem onLine_responses (L : Lib) (X : Ext) (line : String) (w : World) (message : JVal)
    (hparse : L.jsonParse line = .ok message) :
    responses ((onLine L X line).run w).2.trace =
      responses w.trace ++
        match ((handleMessage L X message).run
            { w with trace := w.trace ++ [.log "debug" ("Received: " ++ line)] }).1 with
        | .ok r => if truthy r = true then [r] else []
        | .error _ => [createError .null (-32700) (.str "Parse error")] := by
  have hq := responses_of_emits (handleMessage L X message)
    (handleMessage_emits notResponse L X (fun _ h => h) message)
    { w with trace := w.trace ++ [.log "debug" ("Received: " ++ line)] }
  simp only [onLine, run_tryCatch, run_bind, run_log, run_liftE, hparse]
  rcases hrun : (handleMessage L X message).run
      { w with trace := w.trace ++ [.log "debug" ("Received: " ++ line)] } with ⟨e | r, w1⟩
  · rw [hrun] at hq
    simp [responses_append, responses] at hq
    simp [sendError, sendResponse, truthy_createError, responses_append, responses, hq]
    rcases L.stringify _ with _ | s <;> simp [optStr, toStr, responses_append, responses, hq]
  · rw [hrun] at hq
    simp [responses_append, responses] at hq
    by_cases ht : truthy r = true
    · simp [sendResponse, ht, responses_append, responses, hq]
      rcases L.stringify r with _ | s <;> simp [optStr, toStr, responses_append, responses, hq]
    · simp [sendResponse, ht, hq]

theorem handleMessage_notification (L : Lib) (X : Ext) (w : World) (message : JVal) (m : String)
    (hm : optProp message "method" = .str m)
    (h : m = "initialized" ∨ m = "notifications/initialized" ∨
      (m = "notifications/cancelled" ∧
        printable (optProp (optProp message "params") "requestId") ∧
        printable (optProp (optProp message "params") "reason"))) :
    ((handleMessage L X message).run w).1 = .ok .null := by
  have h1 := destructure_of_optProp_str message "method" "message" _ hm
  have h2 := destructure_of_obj message "params" "method" "message" _ hm
  have h3 := destructure_of_obj message "id" "method" "message" _ hm
  rcases h with rfl | rfl | ⟨rfl, ⟨s1, hs1⟩, ⟨s2, hs2⟩⟩ <;>
    simp [handleMessage, h1, h2, h3, toStr, strictEqStr, *]

theorem handleInitialize_returns (w : World) (params id : JVal) :
    ∃ r, ((handleInitialize params id).run w).1 = .ok r ∧ truthy r = true ∧
      optProp r "id" = id :=
  ⟨_, rfl, rfl, rfl⟩

theorem handleMessage_request (L : Lib) (X : Ext) (w : World) (message : JVal) (m : String)
    (hm : optProp message "method" = .str m)
    (h : m ≠ "initialized" ∧ m ≠ "notifications/initialized" ∧ m ≠ "notifications/cancelled") :
    (∃ r, ((handleMessage L X message).run w).1 = .ok r ∧ truthy r = true ∧
        optProp r "id" = optProp message "id") ∨
    ((∃ e, ((handleMessage L X message).run w).1 = .error e) ∧
        m = "tools/call" ∧ nullish (optProp message "params") = true) := by
  have h1 := destructure_of_optProp_str message "method" "message" _ hm
  have h2 := destructure_of_obj message "params" "method" "message" _ hm
  have h3 := destructure_of_obj message "id" "method" "message" _ hm
  obtain ⟨n1, n2, n3⟩ := h
  by_cases c1 : m = "initialize"
  · subst c1
    left
    obtain ⟨r, hr1, hr2, hr3⟩ := handleInitialize_returns
      { w with trace := w.trace ++ [.call "handleMessage", .log "debug" "Handling method: initialize"] }
      (optProp message "params") (optProp message "id")
    refine ⟨r, ?_, hr2, hr3⟩
    simp [handleMessage, h1, h2, h3, toStr, strictEqStr]
    exact hr1
  by_cases c2 : m = "tools/list"
  · subst c2
    left
    refine ⟨handleToolsList (optProp message "id"), ?_, rfl, rfl⟩
    simp [handleMessage, h1, h2, h3, toStr, strictEqStr]
  by_cases c3 : m = "tools/call"
  · subst c3
    by_cases hp : nullish (optProp message "params") = true
    · right
      refine ⟨?_, rfl, hp⟩
      have hd : ∃ e, destructure (optProp message "params") "name" "params" = .error e := by
        rcases hv : optProp message "params" with _ | _ | b | n | s | xs | fs <;>
          simp_all [nullish, destructure]
      obtain ⟨e, he⟩ := hd
      refine ⟨e, ?_⟩
      simp [handleMessage, h1, h2, h3, toStr, strictEqStr, handleToolCall, he]
    · left
      have hp2 : nullish (optProp message "params") = false := by simpa using hp
      obtain ⟨r, hr1, hr2, hr3⟩ := handleToolCall_returns L X
        { w with trace := w.trace ++ [.call "handleMessage", .log "debug" "Handling method: tools/call"] }
        (optProp message "params") (optProp message "id") hp2
      refine ⟨r, ?_, hr2, hr3⟩
      simp [handleMessage, h1, h2, h3, toStr, strictEqStr]
      exact hr1
  · left
    refine ⟨createError (optProp message "id") (-32601) (.str ("Method not found: " ++ m)),
      ?_, rfl, rfl⟩
    simp [handleMessage, h1, h2, h3, toStr, strictEqStr, *]

/-- C3, as amended. An input line that parses to a message object with a string
`method`.  If the method is exactly `initialized`, `notifications/initialized`
or `notifications/cancelled` (with a `requestId` and a `reason` that can be
logged), the line handler writes no response.  For every other method, with or
without the `notifications/` prefix and with or without an id, it writes
exactly one response, and that response carries the message's id whenever the
method is not `tools/call` or the `params` are present. -/
theorem onLine_response_count (L : Lib) (X : Ext) (line : String) (w : World)
    (message : JVal) (m : String)
    (hparse : L.jsonParse line = .ok message) (hm : optProp message "method" = .str m) :
    ((m = "initialized" ∨ m = "notifications/initialized" ∨
        (m = "notifications/cancelled" ∧
          printable (optProp (optProp message "params") "requestId") ∧
          printable (optProp (optProp message "params") "reason"))) →
      responses ((onLine L X line).run w).2.trace = responses w.trace) ∧
    ((m ≠ "initialized" ∧ m ≠ "notifications/initialized" ∧ m ≠ "notifications/cancelled") →
      ∃ r, responses ((onLine L X line).run w).2.trace = responses w.trace ++ [r] ∧
        ((m ≠ "tools/call" ∨ nullish (optProp message "params") = false) →
          optProp r "id" = optProp message "id")) := by
  constructor
  · intro h
    rw [onLine_responses L X line w message hparse,
      handleMessage_notification L X _ message m hm h]
    simp [truthy]
  · intro h
    rw [onLine_responses L X line w message hparse]
    rcases handleMessage_request L X
        { w with trace := w.trace ++ [.log "debug" ("Received: " ++ line)] } message m hm h
      with ⟨r, hr1, hr2, hr3⟩ | ⟨⟨e, he⟩, hcall, hnull⟩
    · exact ⟨r, by simp [hr1, hr2], fun _ => hr3⟩
    · refine ⟨createError .null (-32700) (.str "Parse error"), by simp [he], ?_⟩
      intro hc
      rcases hc with hc | hc
      · exact absurd hcall hc
      · rw [hnull] at hc
        exact absurd hc (by simp)

theorem onLine_response_count_witness :
    exampleLib.jsonParse toolsListLine
      = .ok (.obj [("jsonrpc", .str "2.0"), ("id", .num 7), ("method", .str "tools/list")]) ∧
    ∃ r, responses ((onLine exampleLib offlineExt toolsListLine).run coldWorld).2.trace
        = responses coldWorld.trace ++ [r] ∧
      (("tools/list" ≠ "tools/call" ∨
          nullish (optProp (.obj [("jsonrpc", .str "2.0"), ("id", .num 7),
            ("method", .str "tools/list")]) "params") = false) →
        optProp r "id" = optProp (.obj [("jsonrpc", .str "2.0"), ("id", .num 7),
            ("method", .str "tools/list")]) "id") :=
  ⟨rfl,
   (onLine_response_count exampleLib offlineExt toolsListLine coldWorld
      (.obj [("jsonrpc", .str "2.0"), ("id", .num 7), ("method", .str "tools/list")])
      "tools/list" rfl rfl).2 ⟨by decide, by decide, by decide⟩⟩

/-- C3, counterexample. The line `progressLine` parses to a message with method
`notifications/progress` and no id, a notification by its prefix and by the
absence of an id; the line handler nevertheless writes a response, the error
-32601. -/
theorem onLine_answers_prefixed_notification :
    exampleLib.jsonParse progressLine
      = .ok (.obj [("jsonrpc", .str "2.0"), ("method", .str "notifications/progress")]) ∧
    responses ((onLine exampleLib offlineExt progressLine).run coldWorld).2.trace
      = [.obj [("jsonrpc", .str "2.0"), ("id", .undefined),
               ("error", .obj [("code", .num (-32601)),
                  ("message", .str "Method not found: notifications/progress")])]] :=
  ⟨rfl, rfl⟩

/-! ## Page creation -/

theorem getAccessToken_requests (L : Lib) (X : Ext) (w : World) :
    requests ((getAccessToken L X).run w).2.trace = requests w.trace :=
  requests_of_emits _ (getAccessToken_emits notRequest L X (fun _ _ => rfl) (fun _ => rfl)
    (fun _ _ => rfl) (fun _ => rfl)) w

/-- C8, as amended. A `create_page` invocation whose `sectionId` and `title` are
non-empty strings.  The content fragment is the caller's `content` when that is
truthy and the placeholder `<p>New page</p>` when it is absent or falsy (the
empty string included).  After the page creation is logged, a token is
requested.  If `getAccessToken` throws, the same error is thrown and no HTTP
request is issued.  If it returns a token, exactly one HTTP request is issued:
a POST to `/me/onenote/sections/<sectionId>/pages` with content type
`text/html`, whose body is the HTML document with the title in its `<title>`
element and the fragment in its `<body>` element. -/
theorem handleCreateCommand_create_page (L : Lib) (X : Ext) (w : World) (input : JVal)
    (sid title frag : String)
    (htype : optProp input "type" = .str "create_page")
    (hsid : optProp input "sectionId" = .str sid) (hsid0 : sid ≠ "")
    (htitle : optProp input "title" = .str title) (htitle0 : title ≠ "")
    (hfrag : toStr (if truthy (optProp input "content") = true then optProp input "content"
                    else .str "<p>New page</p>") = .ok frag) :
    (∀ e w1,
      (getAccessToken L X).run
          { w with trace := w.trace ++ [.call "handleCreateCommand",
              .log "info" ("Creating page: " ++ title ++ " in section: " ++ sid)] }
        = (.error e, w1) →
      (handleCreateCommand L X input).run w = (.error e, w1) ∧
      requests ((handleCreateCommand L X input).run w).2.trace = requests w.trace) ∧
    (∀ token bearer w1,
      (getAccessToken L X).run
          { w with trace := w.trace ++ [.call "handleCreateCommand",
              .log "info" ("Creating page: " ++ title ++ " in section: " ++ sid)] }
        = (.ok token, w1) →
      toStr token = .ok bearer →
      requests ((handleCreateCommand L X input).run w).2.trace =
        requests w.trace ++
          [{ method := "POST"
             url := "https://graph.microsoft.com/v1.0/me/onenote/sections/" ++ sid ++ "/pages"
             headers := [("Authorization", "Bearer " ++ bearer), ("Content-Type", "text/html")]
             data := .str ("\n    <!DOCTYPE html>\n    <html>\n    <head>\n        <title>" ++
               title ++ "</title>\n    </head>\n    <body>\n        " ++ frag ++
               "\n    </body>\n    </html>") }]) := by
  have hg := getAccessToken_requests L X
    { w with trace := w.trace ++ [.call "handleCreateCommand",
        .log "info" ("Creating page: " ++ title ++ " in section: " ++ sid)] }
  have hrun : (handleCreateCommand L X input).run w =
      (createPage L X (.str sid) (.str title)
        (if truthy (optProp input "content") = true then optProp input "content"
         else .str "<p>New page</p>")).run
        { w with trace := w.trace ++ [.call "handleCreateCommand"] } := by
    simp [handleCreateCommand, getProp_of_obj _ _ _ _ htype, htype, hsid, htitle, strictEqStr,
      truthy, hsid0, htitle0]
  rw [hrun]
  constructor
  · intro e w1 he
    rw [he] at hg
    simp [createPage, toStr, hfrag, he]
    simpa [requests_append, requests] using hg
  · intro token bearer w1 hok hb
    rw [hok] at hg
    simp [createPage, toStr, hfrag, hok, hb, axios, htmlDocument, GRAPH_BASE_URL]
    simp [requests_append, requests] at hg
    rcases hx : X.axios _ with e | data
    · rcases ht : toStr (errorText e) with e2 | text <;>
        simp [hx, ht, requests_append, requests, hg]
    · simp [hx, requests_append, requests, hg]

theorem handleCreateCommand_create_page_witness :
    optProp pageInput "type" = .str "create_page" ∧ "S1" ≠ "" ∧ "T1" ≠ "" ∧
    requests ((handleCreateCommand exampleLib offlineExt pageInput).run warmWorld).2.trace =
      requests warmWorld.trace ++
        [{ method := "POST"
           url := "https://graph.microsoft.com/v1.0/me/onenote/sections/" ++ "S1" ++ "/pages"
           headers := [("Authorization", "Bearer " ++ "cached"), ("Content-Type", "text/html")]
           data := .str ("\n    <!DOCTYPE html>\n    <html>\n    <head>\n        <title>" ++
             "T1" ++ "</title>\n    </head>\n    <body>\n        " ++ "<p>hi</p>" ++
             "\n    </body>\n    </html>") }] :=
  ⟨rfl, by decide, by decide,
   (handleCreateCommand_create_page exampleLib offlineExt warmWorld pageInput "S1" "T1"
      "<p>hi</p>" rfl rfl (by decide) rfl (by decide) rfl).2 (.str "cached") "cached" _ rfl rfl⟩

/-- C8, counterexample. (1) Section `S1`, title `T1`, content `<p>hi</p>`, with
no cached token and a device-code flow that fails: no HTTP request is issued.
(2) The same section and title with the empty string supplied as content and a
valid cached token: the body of the one request wraps the placeholder
`<p>New page</p>`, which is not the document wrapping the supplied content. -/
theorem create_page_no_request_or_placeholder :
    requests ((handleCreateCommand exampleLib offlineExt pageInput).run coldWorld).2.trace = [] ∧
    (requests ((handleCreateCommand exampleLib offlineExt emptyPageInput).run warmWorld).2.trace =
        [{ method := "POST"
           url := "https://graph.microsoft.com/v1.0/me/onenote/sections/S1/pages"
           headers := [("Authorization", "Bearer cached"), ("Content-Type", "text/html")]
           data := .str (htmlDocument "T1" "<p>New page</p>") }] ∧
      htmlDocument "T1" "<p>New page</p>" ≠ htmlDocument "T1" "") :=
  ⟨rfl, rfl, by decide⟩

/-! ## Tool listing and the dispatchers -/

mutual
theorem toStr_error (v : JVal) (e : JsError) (h : toStr v = .error e) :
    e = typeError "Cannot convert object to primitive value" := by
  cases v with
  | undefined => simp [toStr] at h
  | null => simp [toStr] at h
  | bool b => simp [toStr] at h
  | num n => simp [toStr] at h
  | str s => simp [toStr] at h
  | arr xs =>
      rw [toStr] at h
      rcases hx : elemStrs xs with e2 | parts
      · rw [hx] at h
        injection h with h
        subst h
        exact elemStrs_error xs _ hx
      · rw [hx] at h
        simp at h
  | obj fields =>
      rw [toStr] at h
      split at h
      · injection h with h
        exact h.symm
      · simp at h
theorem elemStrs_error (xs : List JVal) (e : JsError) (h : elemStrs xs = .error e) :
    e = typeError "Cannot convert object to primitive value" := by
  cases xs with
  | nil => simp [elemStrs] at h
  | cons x rest =>
      have hrest : ∀ e2, elemStrs rest = .error e2 →
          e2 = typeError "Cannot convert object to primitive value" :=
        fun e2 h2 => elemStrs_error rest e2 h2
      have hx : ∀ e2, toStr x = .error e2 →
          e2 = typeError "Cannot convert object to primitive value" :=
        fun e2 h2 => toStr_error x e2 h2
      cases x <;> simp only [elemStrs] at h <;>
        (first
          | (rcases hr : elemStrs rest with e2 | parts
             · rw [hr] at h
               injection h with h
               subst h
               exact hrest _ hr
             · rw [hr] at h
               simp at h)
          | (split at h
             · next e2 he2 =>
                 injection h with h
                 subst h
                 exact hx _ he2
             · rcases hr : elemStrs rest with e2 | parts
               · rw [hr] at h
                 injection h with h
                 subst h
                 exact hrest _ hr
               · rw [hr] at h
                 simp at h))
end

theorem trace_length_of_emits (P : Eff → Prop) {α : Type} (x : Js α) (h : Emits P x)
    (w : World) : w.trace.length ≤ (x.run w).2.trace.length := by
  obtain ⟨evs, h1, _⟩ := h w
  rw [h1]
  simp

theorem grows_log_bind {α : Type} (message level : String) (f : Unit → Js α)
    (h : Emits (fun _ => True) (f ())) : Grows (log message level >>= f) := by
  intro w
  have := trace_length_of_emits _ _ h { w with trace := w.trace ++ [.log level message] }
  simp only [run_bind, run_log]
  simp at this
  omega

theorem grows_liftE_bind {α β : Type} (r : Except JsError α) (a : α) (f : α → Js β)
    (hr : r = .ok a) (h : Grows (f a)) : Grows (liftE r >>= f) := by
  intro w
  simp only [run_bind, run_liftE, hr]
  exact h w

theorem ne_of_grows {α : Type} (x : Js α) (h : Grows x) (w : World) (r : Except JsError α) :
    x.run w ≠ (r, w) := by
  intro heq
  have := h w
  rw [heq] at this
  exact absurd this (lt_irrefl _)

theorem readNotebooks_grows (L : Lib) (X : Ext) : Grows (readNotebooks L X) := by
  unfold readNotebooks
  apply grows_log_bind
  repeat' first
    | with_reducible refine emits_bind _ _ _ ?_ (fun _ => ?_)
    | with_reducible exact emits_liftE _ _
    | with_reducible exact makeGraphRequest_emits _ L X (fun _ _ => trivial) _ _ _

theorem readSections_grows (L : Lib) (X : Ext) (v : JVal) (s : String) (h : toStr v = .ok s) :
    Grows (readSections L X v) := by
  unfold readSections
  apply grows_liftE_bind _ _ _ h
  apply grows_log_bind
  repeat' first
    | with_reducible refine emits_bind _ _ _ ?_ (fun _ => ?_)
    | with_reducible exact emits_liftE _ _
    | with_reducible exact makeGraphRequest_emits _ L X (fun _ _ => trivial) _ _ _

theorem readPages_grows (L : Lib) (X : Ext) (v : JVal) (s : String) (h : toStr v = .ok s) :
    Grows (readPages L X v) := by
  unfold readPages
  apply grows_liftE_bind _ _ _ h
  apply grows_log_bind
  repeat' first
    | with_reducible refine emits_bind _ _ _ ?_ (fun _ => ?_)
    | with_reducible exact emits_liftE _ _
    | with_reducible exact makeGraphRequest_emits _ L X (fun _ _ => trivial) _ _ _

theorem readPageContent_grows (L : Lib) (X : Ext) (v : JVal) (s : String)
    (h : toStr v = .ok s) : Grows (readPageContent L X v) := by
  unfold readPageContent
  apply grows_liftE_bind _ _ _ h
  apply grows_log_bind
  repeat' first
    | with_reducible refine emits_bind _ _ _ ?_ (fun _ => ?_)
    | with_reducible exact emits_pure _ _
    | with_reducible exact makeGraphRequest_emits _ L X (fun _ _ => trivial) _ _ _

theorem createNotebook_grows (L : Lib) (X : Ext) (v : JVal) (s : String)
    (h : toStr v = .ok s) : Grows (createNotebook L X v) := by
  unfold createNotebook
  apply grows_liftE_bind _ _ _ h
  apply grows_log_bind
  exact makeGraphRequest_emits _ L X (fun _ _ => trivial) _ _ _

theorem createSection_grows (L : Lib) (X : Ext) (nb dn : JVal) (s1 s2 : String)
    (h1 : toStr dn = .ok s1) (h2 : toStr nb = .ok s2) : Grows (createSection L X nb dn) := by
  unfold createSection
  apply grows_liftE_bind _ _ _ h1
  apply grows_liftE_bind _ _ _ h2
  apply grows_log_bind
  exact makeGraphRequest_emits _ L X (fun _ _ => trivial) _ _ _

theorem createPage_grows (L : Lib) (X : Ext) (sec title content : JVal) (s1 s2 : String)
    (h1 : toStr title = .ok s1) (h2 : toStr sec = .ok s2) :
    Grows (createPage L X sec title content) := by
  unfold createPage axios
  apply grows_liftE_bind _ _ _ h1
  apply grows_liftE_bind _ _ _ h2
  apply grows_log_bind
  repeat' first
    | with_reducible refine emits_bind _ _ _ ?_ (fun _ => ?_)
    | with_reducible refine emits_tryCatch _ _ _ ?_ (fun _ => ?_)
    | with_reducible exact emits_pure _ _
    | with_reducible exact emits_throw _ _
    | with_reducible exact emits_liftE _ _
    | with_reducible refine emits_log _ _ _ ?_
    | with_reducible refine emits_emit _ _ ?_
    | with_reducible exact getAccessToken_emits_of _ L X (fun _ _ => trivial)
    | exact trivial

theorem error_ne_of_toStr {α : Type} (v : JVal) (e : JsError) (w : World) (message : String)
    (h : toStr v = .error e) (hm : message ≠ "Cannot convert object to primitive value") :
    ((.error e, w) : Except JsError α × World) ≠ (.error (mkError message), w) := by
  intro heq
  have he := toStr_error v e h
  subst he
  simp [mkError, typeError] at heq
  exact hm heq.symm

theorem readSections_ne (L : Lib) (X : Ext) (v : JVal) (w : World) (message : String)
    (hm : message ≠ "Cannot convert object to primitive value") :
    (readSections L X v).run w ≠ (.error (mkError message), w) := by
  rcases h : toStr v with e | s
  · simp only [readSections, run_bind, run_liftE, h]
    exact error_ne_of_toStr v e w message h hm
  · exact ne_of_grows _ (readSections_grows L X v s h) w _

theorem readPages_ne (L : Lib) (X : Ext) (v : JVal) (w : World) (message : String)
    (hm : message ≠ "Cannot convert object to primitive value") :
    (readPages L X v).run w ≠ (.error (mkError message), w) := by
  rcases h : toStr v with e | s
  · simp only [readPages, run_bind, run_liftE, h]
    exact error_ne_of_toStr v e w message h hm
  · exact ne_of_grows _ (readPages_grows L X v s h) w _

theorem readPageContent_ne (L : Lib) (X : Ext) (v : JVal) (w : World) (message : String)
    (hm : message ≠ "Cannot convert object to primitive value") :
    (readPageContent L X v).run w ≠ (.error (mkError message), w) := by
  rcases h : toStr v with e | s
  · simp only [readPageContent, run_bind, run_liftE, h]
    exact error_ne_of_toStr v e w message h hm
  · exact ne_of_grows _ (readPageContent_grows L X v s h) w _

theorem createNotebook_ne (L : Lib) (X : Ext) (v : JVal) (w : World) (message : String)
    (hm : message ≠ "Cannot convert object to primitive value") :
    (createNotebook L X v).run w ≠ (.error (mkError message), w) := by
  rcases h : toStr v with e | s
  · simp only [createNotebook, run_bind, run_liftE, h]
    exact error_ne_of_toStr v e w message h hm
  · exact ne_of_grows _ (createNotebook_grows L X v s h) w _

theorem createSection_ne (L : Lib) (X : Ext) (nb dn : JVal) (w : World) (message : String)
    (hm : message ≠ "Cannot convert object to primitive value") :
    (createSection L X nb dn).run w ≠ (.error (mkError message), w) := by
  rcases h1 : toStr dn with e | s1
  · simp only [createSection, run_bind, run_liftE, h1]
    exact error_ne_of_toStr dn e w message h1 hm
  · rcases h2 : toStr nb with e | s2
    · simp only [createSection, run_bind, run_liftE, h1, h2]
      exact error_ne_of_toStr nb e w message h2 hm
    · exact ne_of_grows _ (createSection_grows L X nb dn s1 s2 h1 h2) w _

theorem createPage_ne (L : Lib) (X : Ext) (sec title content : JVal) (w : World)
    (message : String) (hm : message ≠ "Cannot convert object to primitive value") :
    (createPage L X sec title content).run w ≠ (.error (mkError message), w) := by
  rcases h1 : toStr title with e | s1
  · simp only [createPage, run_bind, run_liftE, h1]
    exact error_ne_of_toStr title e w message h1 hm
  · rcases h2 : toStr sec with e | s2
    · simp only [createPage, run_bind, run_liftE, h1, h2]
      exact error_ne_of_toStr sec e w message h2 hm
    · exact ne_of_grows _ (createPage_grows L X sec title content s1 s2 h1 h2) w _

/-- The read dispatcher fails with the unknown-type error, without any effect,
exactly on the types outside the four it names. -/
theorem handleReadCommand_unknown_iff (L : Lib) (X : Ext) (w : World) (input : JVal)
    (t : String) (ht : optProp input "type" = .str t) :
    (handleReadCommand L X input).run w
        = (.error (mkError ("Unknown read type: " ++ t)),
           { w with trace := w.trace ++ [.call "handleReadCommand"] }) ↔
      ¬ (t = "list_notebooks" ∨ t = "list_sections" ∨ t = "list_pages" ∨ t = "read_content") := by
  have hg := getProp_of_obj input "type" "type" t ht
  have hread : (handleReadCommand L X input).run w =
      (if t = "list_notebooks" then readNotebooks L X
       else if t = "list_sections" then
         (if truthy (optProp input "notebookId") = true then
            readSections L X (optProp input "notebookId")
          else throw (mkError "notebookId is required"))
       else if t = "list_pages" then
         (if truthy (optProp input "sectionId") = true then
            readPages L X (optProp input "sectionId")
          else throw (mkError "sectionId is required"))
       else if t = "read_content" then
         (if truthy (optProp input "pageId") = true then
            (readPageContent L X (optProp input "pageId")).bind (fun content =>
              pure (.obj [("pageId", optProp input "pageId"), ("content", content)]))
          else throw (mkError "pageId is required"))
       else throw (mkError ("Unknown read type: " ++ t))).run
        { w with trace := w.trace ++ [.call "handleReadCommand"] } := by
    simp only [handleReadCommand, run_bind, run_emit, run_liftE, hg, ht,
      getProp_of_obj input _ "type" t ht, strictEqStr, beq_iff_eq, toStr]
    by_cases c1 : t = "list_notebooks"
    · simp [c1]
    by_cases c2 : t = "list_sections"
    · by_cases hv : truthy (optProp input "notebookId") = true <;> simp [c2, hv]
    by_cases c3 : t = "list_pages"
    · by_cases hv : truthy (optProp input "sectionId") = true <;> simp [c3, hv]
    by_cases c4 : t = "read_content"
    · by_cases hv : truthy (optProp input "pageId") = true <;> simp [c4, hv]
    simp [c1, c2, c3, c4]
  rw [hread]
  by_cases c1 : t = "list_notebooks"
  · subst c1
    simp only [if_true]
    exact iff_of_false (ne_of_grows _ (readNotebooks_grows L X) _ _) (by simp)
  by_cases c2 : t = "list_sections"
  · subst c2
    refine iff_of_false ?_ (by simp)
    by_cases hv : truthy (optProp input "notebookId") = true
    · simpa [hv] using readSections_ne L X _ _ _ (by decide)
    · simp [hv, mkError]
  by_cases c3 : t = "list_pages"
  · subst c3
    refine iff_of_false ?_ (by simp)
    by_cases hv : truthy (optProp input "sectionId") = true
    · simpa [hv] using readPages_ne L X _ _ _ (by decide)
    · simp [hv, mkError]
  by_cases c4 : t = "read_content"
  · subst c4
    refine iff_of_false ?_ (by simp)
    by_cases hv : truthy (optProp input "pageId") = true
    · simp only [c1, c2, c3, if_true, if_false, hv, run_jsbind]
      intro heq
      rcases hrun : (readPageContent L X (optProp input "pageId")).run
          { w with trace := w.trace ++ [.call "handleReadCommand"] } with ⟨e | r, w1⟩
      · rw [hrun] at heq
        simp only at heq
        exact readPageContent_ne L X _ _ ("Unknown read type: " ++ "read_content") (by decide)
          (hrun.trans heq)
      · rw [hrun] at heq
        simp at heq
    · simp [hv, mkError]
  · simp [c1, c2, c3, c4]

/-- The create dispatcher fails with the unknown-type error, without any
effect, exactly on the types outside the three it names. -/
theorem handleCreateCommand_unknown_iff (L : Lib) (X : Ext) (w : World) (input : JVal)
    (t : String) (ht : optProp input "type" = .str t) :
    (handleCreateCommand L X input).run w
        = (.error (mkError ("Unknown create type: " ++ t)),
           { w with trace := w.trace ++ [.call "handleCreateCommand"] }) ↔
      ¬ (t = "create_notebook" ∨ t = "create_section" ∨ t = "create_page") := by
  have hg := getProp_of_obj input "type" "type" t ht
  have hcreate : (handleCreateCommand L X input).run w =
      (if t = "create_notebook" then
         (if truthy (optProp input "displayName") = true then
            createNotebook L X (optProp input "displayName")
          else throw (mkError "displayName is required"))
       else if t = "create_section" then
         (if truthy (optProp input "notebookId") = true ∧
              truthy (optProp input "displayName") = true then
            createSection L X (optProp input "notebookId") (optProp input "displayName")
          else throw (mkError "notebookId and displayName are required"))
       else if t = "create_page" then
         (if truthy (optProp input "sectionId") = true ∧
              truthy (optProp input "title") = true then
            createPage L X (optProp input "sectionId") (optProp input "title")
              (if truthy (optProp input "content") = true then optProp input "content"
               else .str "<p>New page</p>")
          else throw (mkError "sectionId and title are required"))
       else throw (mkError ("Unknown create type: " ++ t))).run
        { w with trace := w.trace ++ [.call "handleCreateCommand"] } := by
    simp only [handleCreateCommand, run_bind, run_emit, run_liftE, hg, ht,
      getProp_of_obj input _ "type" t ht, strictEqStr, beq_iff_eq, toStr]
    by_cases c1 : t = "create_notebook"
    · by_cases hv : truthy (optProp input "displayName") = true <;> simp [c1, hv]
    by_cases c2 : t = "create_section"
    · by_cases hv : truthy (optProp input "notebookId") = true <;>
        by_cases hv2 : truthy (optProp input "displayName") = true <;> simp [c2, hv, hv2]
    by_cases c3 : t = "create_page"
    · by_cases hv : truthy (optProp input "sectionId") = true <;>
        by_cases hv2 : truthy (optProp input "title") = true <;> simp [c3, hv, hv2]
    simp [c1, c2, c3]
  rw [hcreate]
  by_cases c1 : t = "create_notebook"
  · subst c1
    refine iff_of_false ?_ (by simp)
    by_cases hv : truthy (optProp input "displayName") = true
    · simpa [hv] using createNotebook_ne L X _ _ _ (by decide)
    · simp [hv, mkError]
  by_cases c2 : t = "create_section"
  · subst c2
    refine iff_of_false ?_ (by simp)
    by_cases hv : truthy (optProp input "notebookId") = true ∧
        truthy (optProp input "displayName") = true
    · simpa [hv] using createSection_ne L X _ _ _ _ (by decide)
    · simp only [c1, if_true, if_false, hv]
      simp [mkError]
  by_cases c3 : t = "create_page"
  · subst c3
    refine iff_of_false ?_ (by simp)
    by_cases hv : truthy (optProp input "sectionId") = true ∧
        truthy (optProp input "title") = true
    · simp only [c1, c2, if_true, if_false, hv, and_self]
      exact createPage_ne L X _ _ _ _ _ (by decide)
    · simp only [c1, c2, if_true, if_false, hv]
      simp [mkError]
  · simp [c1, c2, c3]

/-- C9. For every id, `handleToolsList` returns exactly two tool descriptors,
named `onenote-read` and `onenote-create` in that order.  For arguments whose
`type` is the string `t`: `t` is in the `type` enum of the first descriptor iff
`handleReadCommand` does not fail with `Unknown read type: t` before any
effect, and in the enum of the second iff `handleCreateCommand` does not fail
with `Unknown create type: t` before any effect.  So a type outside the enum
fails with the unknown-type error and the trace gains only the entry of the
dispatcher: no token request, no remote call. -/
theorem handleToolsList_enum_matches_dispatcher (id : JVal) (L : Lib) (X : Ext) (w : World)
    (input : JVal) (t : String) (ht : optProp input "type" = .str t) :
    ∃ rd cr, toolDescriptors (handleToolsList id) = [rd, cr] ∧
      optProp rd "name" = .str "onenote-read" ∧
      optProp cr "name" = .str "onenote-create" ∧
      (JVal.str t ∈ typeEnum rd ↔
        ¬ (handleReadCommand L X input).run w
            = (.error (mkError ("Unknown read type: " ++ t)),
               { w with trace := w.trace ++ [.call "handleReadCommand"] })) ∧
      (JVal.str t ∈ typeEnum cr ↔
        ¬ (handleCreateCommand L X input).run w
            = (.error (mkError ("Unknown create type: " ++ t)),
               { w with trace := w.trace ++ [.call "handleCreateCommand"] })) := by
  refine ⟨_, _, rfl, rfl, rfl, ?_, ?_⟩
  · rw [handleReadCommand_unknown_iff L X w input t ht, not_not]
    show JVal.str t ∈ [JVal.str "list_notebooks", .str "list_sections", .str "list_pages",
      .str "read_content"] ↔ _
    simp
  · rw [handleCreateCommand_unknown_iff L X w input t ht, not_not]
    show JVal.str t ∈ [JVal.str "create_notebook", .str "create_section",
      .str "create_page"] ↔ _
    simp

theorem handleToolsList_enum_matches_dispatcher_witness :
    optProp (.obj [("type", .str "delete_page")]) "type" = .str "delete_page" ∧
    ∃ rd cr, toolDescriptors (handleToolsList (.num 2)) = [rd, cr] ∧
      optProp rd "name" = .str "onenote-read" ∧
      optProp cr "name" = .str "onenote-create" ∧
      (JVal.str "delete_page" ∈ typeEnum rd ↔
        ¬ (handleReadCommand exampleLib offlineExt (.obj [("type", .str "delete_page")])).run
            warmWorld
            = (.error (mkError ("Unknown read type: " ++ "delete_page")),
               { warmWorld with trace := warmWorld.trace ++ [.call "handleReadCommand"] })) ∧
      (JVal.str "delete_page" ∈ typeEnum cr ↔
        ¬ (handleCreateCommand exampleLib offlineExt (.obj [("type", .str "delete_page")])).run
            warmWorld
            = (.error (mkError ("Unknown create type: " ++ "delete_page")),
               { warmWorld with trace := warmWorld.trace ++ [.call "handleCreateCommand"] })) :=
  ⟨rfl, handleToolsList_enum_matches_dispatcher (.num 2) exampleLib offlineExt warmWorld
    (.obj [("type", .str "delete_page")]) "delete_page" rfl⟩

end OneNote
